import Mathlib

/-!
Verification of the `dac-myga-intro` MYGA illustration and CARVM reserve engine.

This file gives a shallow embedding of the core of the repository:

* `engine/catalog.py`   — product catalog and surrender-charge resolver
* `engine/withdrawals.py` — free-withdrawal budget tracking and per-month withdrawal split
* `engine/mva.py`       — market-value-adjustment factor
* `engine/av.py`        — account-value monthly roll-forward
* `engine/guarantee_funds.py` — MFV/PFV guarantee-fund tracks
* `engine/csv.py`       — cash-surrender-value calculator
* `engine/illustration.py` — the monthly projection orchestrator
* `carvm/reserve.py`    — the reverse-induction CARVM reserve engine

Python floats are modelled as exact ordered-field arithmetic: the pure
min/max/plus/times components are polymorphic over a `LinearOrderedField`
(instantiated at `ℚ` for executable witnesses and at `ℝ` for the orchestrator),
and the components that take 12th roots (`(1+r)**(1/12)`) are modelled over `ℝ`
with `Real.rpow`.  Python exceptions are modelled with `Except PyError`.
-/

/-- Python exception classes raised by the embedded code
    (`engine/errors.py` plus the builtin exceptions the code can raise). -/
inductive PyError where
  /-- `ProductNotFoundError` from `engine/errors.py`. -/
  | productNotFound : PyError
  /-- `ProductSpecValidationError` from `engine/errors.py`. -/
  | productSpecValidation : PyError
  /-- builtin `ValueError` (raised by `compute_mva_factor`). -/
  | valueError : PyError
  /-- builtin `AttributeError` (attribute access on a dataclass lacking the field). -/
  | attributeError : PyError
  deriving Repr, DecidableEq

/-- Boolean test that an `Except` computation returned normally. -/
def exceptIsOk {ε β : Type} : Except ε β → Bool
  | .ok _ => true
  | .error _ => false

/-- Decidable equality on `Except` (componentwise). -/
instance exceptDecEq {ε β : Type} [DecidableEq ε] [DecidableEq β] :
    DecidableEq (Except ε β) := fun a b =>
  match a, b with
  | .ok x, .ok y =>
      match decEq x y with
      | isTrue h => isTrue (by rw [h])
      | isFalse h => isFalse (by intro hc; cases hc; exact h rfl)
  | .error x, .error y =>
      match decEq x y with
      | isTrue h => isTrue (by rw [h])
      | isFalse h => isFalse (by intro hc; cases hc; exact h rfl)
  | .ok _, .error _ => isFalse (by intro hc; cases hc)
  | .error _, .ok _ => isFalse (by intro hc; cases hc)

/-!
## Data model (`engine/models.py`, `engine/inputs.py`)

String-valued method fields (`withdrawal_method`, `free_partial_withdrawal.method`)
are `Literal` types in the source; they are embedded as closed inductives.
-/

/-- `FreeWithdrawalMethod` literal from `engine/models.py`. -/
inductive FreeWithdrawalMethod where
  | prior_year_interest_credited : FreeWithdrawalMethod
  | pct_of_boy_account_value : FreeWithdrawalMethod
  deriving Repr, DecidableEq

/-- `MVAFeature` from `engine/models.py` (the benchmark-index metadata carries no
    numeric content used by the engine, so only `enabled` is modelled). -/
structure MVAFeature where
  enabled : Bool
  deriving Repr, DecidableEq

/-- `SurrenderChargeFeature` from `engine/models.py`.  The Python
    `Dict[int, float]` schedule is modelled as an association list keyed by
    policy year. -/
structure SurrenderChargeFeature (α : Type) where
  schedule : List (ℕ × α)
  after_term_default_charge_pct : α
  deriving Repr, DecidableEq

/-- `FreePartialWithdrawalFeature` from `engine/models.py`.  The `params` dict is
    only ever read at key `"pct"` (`fpw.params.get("pct", 0.0)`); `params_pct`
    models the presence/value of that key. -/
structure FreeWithdrawalFeature (α : Type) where
  enabled : Bool
  method : FreeWithdrawalMethod
  params_pct : Option α
  deriving Repr, DecidableEq

/-- `MFVSpec` from `engine/models.py`. -/
structure MFVSpec (α : Type) where
  base_pct_of_premium : α
  deriving Repr, DecidableEq

/-- `PFVSpec` from `engine/models.py`. -/
structure PFVSpec (α : Type) where
  base_pct_of_premium : α
  rate_annual : α
  rate_years : ℕ
  rate_after_years_annual : α
  deriving Repr, DecidableEq

/-- `GuaranteeFundsSpec` from `engine/models.py`. -/
structure GuaranteeFundsSpec (α : Type) where
  mfv : MFVSpec α
  pfv : PFVSpec α
  deriving Repr, DecidableEq

/-- `ProductFeatures` from `engine/models.py` (`free_partial_withdrawal` is the
    field named `fpw` here). -/
structure ProductFeatures (α : Type) where
  minimum_guaranteed_rate : α
  mva : MVAFeature
  surrender_charge : SurrenderChargeFeature α
  fpw : FreeWithdrawalFeature α
  guarantee_funds : GuaranteeFundsSpec α
  deriving Repr, DecidableEq

/-- `ProductSpec` from `engine/models.py` (assumption-key placeholders carry no
    engine content and are omitted). -/
structure ProductSpec (α : Type) where
  product_code : String
  term_years : ℕ
  features : ProductFeatures α
  deriving Repr, DecidableEq

/-- `WithdrawalMethod` literal from `engine/inputs.py`. -/
inductive WithdrawalMethod where
  | pct_of_boy_av : WithdrawalMethod
  | fixed_amount : WithdrawalMethod
  | prior_year_interest_credited : WithdrawalMethod
  deriving Repr, DecidableEq

/-- `IllustrationInputs` from `engine/inputs.py`.  Note: the dataclass defines
    NO `installment_years` field — `run_illustration` nevertheless reads
    `inputs.installment_years` (illustration.py line 145), which is the
    `AttributeError` proved in the C1 theorem below. -/
structure IllustrationInputs (α : Type) where
  product_code : String
  premium : α
  issue_age : ℕ
  gender : String
  initial_rate : α
  renewal_rate : α
  withdrawal_method : WithdrawalMethod
  projection_years : ℕ
  withdrawal_value : α
  mva_initial_index_rate : Option α
  mva_current_index_rate : Option α
  mva_months_remaining_override : Option ℤ
  deriving Repr, DecidableEq

/-!
## Product catalog (`engine/catalog.py`)

`ProductCatalog` loads YAML product specs keyed by (normalised) product code and
caches them; it is modelled abstractly by its lookup map `get?`, the contents of
the products directory after parsing.
-/

/-- `ProductCatalog` from `engine/catalog.py`, modelled by its code → spec
    lookup.  `none` means no `{code}.yml` file exists. -/
structure ProductCatalog (α : Type) where
  get? : String → Option (ProductSpec α)

/-- `ProductCatalog.get` from `engine/catalog.py` (lines 36–48): returns the
    spec, or raises `ProductNotFoundError` for an unknown code. -/
def ProductCatalog.get {α : Type} (c : ProductCatalog α) (product_code : String) :
    Except PyError (ProductSpec α) :=
  match c.get? product_code with
  | some spec => .ok spec
  | none => .error .productNotFound

/-- `ProductCatalog.surrender_charge` from `engine/catalog.py` (lines 66–75):
    within the term the schedule must have an explicit entry (otherwise a
    `ProductSpecValidationError` is raised); past the term the after-term
    default is returned unconditionally. -/
def ProductCatalog.surrender_charge {α : Type} (c : ProductCatalog α)
    (product_code : String) (policy_year : ℕ) : Except PyError α := do
  let spec ← c.get product_code
  if policy_year ≤ spec.term_years then
    match spec.features.surrender_charge.schedule.lookup policy_year with
    | none => throw .productSpecValidation
    | some v => pure v
  else
    pure spec.features.surrender_charge.after_term_default_charge_pct

/-!
## Withdrawals (`engine/withdrawals.py`)
-/

/-- `WithdrawalState` from `engine/withdrawals.py`. -/
structure WithdrawalState (α : Type) where
  policy_year : ℕ
  month_in_policy_year : ℕ
  free_limit_ytd : α
  free_used_ytd : α
  free_remaining_ytd : α
  deriving Repr, DecidableEq

/-- `WithdrawalResult` from `engine/withdrawals.py`. -/
structure WithdrawalResult (α : Type) where
  withdrawal_amount : α
  free_limit_ytd : α
  free_used_this_txn : α
  free_used_ytd_eop : α
  free_remaining_eop : α
  excess_amount : α
  surrender_charge_pct : α
  surrender_charge_amount : α
  mva_factor : α
  mva_amount_subject : α
  mva_amount : α
  penalty_total : α
  deriving Repr, DecidableEq

/-- `init_withdrawal_state` from `engine/withdrawals.py` (lines 47–54). -/
def init_withdrawal_state {α : Type} [LinearOrderedField α] : WithdrawalState α :=
  { policy_year := 1
    month_in_policy_year := 1
    free_limit_ytd := 0
    free_used_ytd := 0
    free_remaining_ytd := 0 }

/-- `compute_free_limit_for_year` from `engine/withdrawals.py` (lines 57–74). -/
def compute_free_limit_for_year {α : Type} [LinearOrderedField α]
    (spec : ProductSpec α) (policy_year : ℕ) (year_bop_av : α)
    (prior_policy_year_interest : α) : α :=
  let fpw := spec.features.fpw
  if ¬ fpw.enabled ∨ policy_year ≤ 1 then 0
  else
    match fpw.method with
    | .pct_of_boy_account_value => max 0 ((fpw.params_pct.getD 0) * year_bop_av)
    | .prior_year_interest_credited => max 0 prior_policy_year_interest

/-- `compute_user_withdrawal_amount` from `engine/withdrawals.py` (lines 77–95). -/
def compute_user_withdrawal_amount {α : Type} [LinearOrderedField α]
    (inputs : IllustrationInputs α) (policy_year : ℕ) (year_bop_av : α)
    (prior_policy_year_interest : α) : α :=
  if policy_year ≤ 1 then 0
  else
    match inputs.withdrawal_method with
    | .pct_of_boy_av => max 0 (inputs.withdrawal_value * year_bop_av)
    | .fixed_amount => max 0 inputs.withdrawal_value
    | .prior_year_interest_credited => max 0 prior_policy_year_interest

/-- `_refresh_year_state_if_needed` from `engine/withdrawals.py` (lines 98–134).
    It re-reads the product spec through the catalog, so it can raise
    `ProductNotFoundError`. -/
def refresh_year_state_if_needed {α : Type} [LinearOrderedField α]
    (catalog : ProductCatalog α) (inputs : IllustrationInputs α)
    (state : WithdrawalState α) (policy_year month_in_policy_year : ℕ)
    (year_bop_av prior_policy_year_interest : α) :
    Except PyError (WithdrawalState α) := do
  let spec ← catalog.get inputs.product_code
  if policy_year ≠ state.policy_year ∧ month_in_policy_year = 1 then
    let free_limit := compute_free_limit_for_year spec policy_year year_bop_av
      prior_policy_year_interest
    pure
      { policy_year := policy_year
        month_in_policy_year := month_in_policy_year
        free_limit_ytd := free_limit
        free_used_ytd := 0
        free_remaining_ytd := free_limit }
  else if month_in_policy_year ≠ state.month_in_policy_year then
    pure
      { policy_year := state.policy_year
        month_in_policy_year := month_in_policy_year
        free_limit_ytd := state.free_limit_ytd
        free_used_ytd := state.free_used_ytd
        free_remaining_ytd := state.free_remaining_ytd }
  else
    pure state

/-- `calc_withdrawal_for_month` from `engine/withdrawals.py` (lines 137–242).
    The MVA factor is passed in by the orchestrator.  Withdrawals only happen at
    month 1 of policy years ≥ 2; every other month returns a zero result built
    from the (refreshed) state. -/
def calc_withdrawal_for_month {α : Type} [LinearOrderedField α]
    (catalog : ProductCatalog α) (inputs : IllustrationInputs α)
    (state : WithdrawalState α) (policy_year month_in_policy_year : ℕ)
    (av_bop year_bop_av prior_policy_year_interest : α) (mva_factor : α) :
    Except PyError (WithdrawalState α × WithdrawalResult α) := do
  let state ← refresh_year_state_if_needed catalog inputs state policy_year
    month_in_policy_year year_bop_av prior_policy_year_interest
  if ¬ (month_in_policy_year = 1 ∧ 2 ≤ policy_year) then
    pure (state,
      { withdrawal_amount := 0
        free_limit_ytd := state.free_limit_ytd
        free_used_this_txn := 0
        free_used_ytd_eop := state.free_used_ytd
        free_remaining_eop := state.free_remaining_ytd
        excess_amount := 0
        surrender_charge_pct := 0
        surrender_charge_amount := 0
        mva_factor := mva_factor
        mva_amount_subject := 0
        mva_amount := 0
        penalty_total := 0 })
  else
    let wd_req := compute_user_withdrawal_amount inputs policy_year year_bop_av
      prior_policy_year_interest
    let wd := min (max 0 wd_req) (max 0 av_bop)
    let free_used_this_txn := min wd (max 0 state.free_remaining_ytd)
    let excess_amount := max 0 (wd - free_used_this_txn)
    let free_used_ytd_eop := state.free_used_ytd + free_used_this_txn
    let free_remaining_eop := max 0 (state.free_limit_ytd - free_used_ytd_eop)
    let surrender_charge_pct ← catalog.surrender_charge inputs.product_code policy_year
    let surrender_charge_amount := excess_amount * surrender_charge_pct
    let mva_amount_subject := max 0 (excess_amount - surrender_charge_amount)
    let mva_amount := mva_amount_subject * mva_factor
    let penalty_total := surrender_charge_amount + mva_amount
    pure
      ({ policy_year := policy_year
         month_in_policy_year := month_in_policy_year
         free_limit_ytd := state.free_limit_ytd
         free_used_ytd := free_used_ytd_eop
         free_remaining_ytd := free_remaining_eop },
       { withdrawal_amount := wd
         free_limit_ytd := state.free_limit_ytd
         free_used_this_txn := free_used_this_txn
         free_used_ytd_eop := free_used_ytd_eop
         free_remaining_eop := free_remaining_eop
         excess_amount := excess_amount
         surrender_charge_pct := surrender_charge_pct
         surrender_charge_amount := surrender_charge_amount
         mva_factor := mva_factor
         mva_amount_subject := mva_amount_subject
         mva_amount := mva_amount
         penalty_total := penalty_total })

/-!
## MVA factor (`engine/mva.py`)
-/

/-- `compute_mva_factor` from `engine/mva.py` (lines 36–64): returns 0 when
    `N <= 0` (before any rate validation); otherwise raises `ValueError` when
    `1+X <= 0` or `1+Y <= 0`, and otherwise returns
    `((1+X)/(1+Y))^(N/12) - 1` (real power). -/
noncomputable def compute_mva_factor (x y : ℝ) (n_months_remaining : ℤ) :
    Except PyError ℝ :=
  if n_months_remaining ≤ 0 then .ok 0
  else if 1 + x ≤ 0 ∨ 1 + y ≤ 0 then .error .valueError
  else .ok (((1 + x) / (1 + y)) ^ ((n_months_remaining : ℝ) / 12) - 1)

/-!
## Account value roll-forward (`engine/av.py`)
-/

/-- `monthly_rate_from_annual` from `engine/av.py` line 7 (the identical helper
    also appears in `engine/guarantee_funds.py` line 7):
    `(1 + r) ** (1/12) - 1` as a real power. -/
noncomputable def monthly_rate_from_annual (r_annual : ℝ) : ℝ :=
  (1 + r_annual) ^ ((1 : ℝ) / 12) - 1

/-- `AVResult` from `engine/av.py`. -/
structure AVResult where
  av_after_wd : ℝ
  interest_credit : ℝ
  av_eop : ℝ

/-- `roll_forward_account_value` from `engine/av.py` (lines 18–61):
    withdrawal and penalty are clamped at 0, the post-withdrawal value is
    floored at 0, one month of interest is credited, and an optional
    end-of-period floor (clamped at 0) is applied with `max`. -/
noncomputable def roll_forward_account_value (av_bop : ℝ)
    (withdrawal penalty annual_rate : ℝ) (floor_eop : Option ℝ) : AVResult :=
  let wd := max 0 withdrawal
  let pen := max 0 penalty
  let av_after_wd := max 0 (av_bop - wd - pen)
  let r_m := monthly_rate_from_annual annual_rate
  let interest := av_after_wd * r_m
  let av_eop_raw := av_after_wd + interest
  let av_eop :=
    match floor_eop with
    | some f => max av_eop_raw (max 0 f)
    | none => av_eop_raw
  { av_after_wd := av_after_wd, interest_credit := interest, av_eop := av_eop }

/-!
## Guarantee funds (`engine/guarantee_funds.py`)
-/

/-- `MinimumFundValueParams` from `engine/guarantee_funds.py`. -/
structure MinimumFundValueParams where
  base_pct_of_premium : ℝ

/-- `ProspectiveFundValueParams` from `engine/guarantee_funds.py`. -/
structure ProspectiveFundValueParams where
  base_pct_of_premium : ℝ
  rate_annual : ℝ
  rate_years : ℕ
  rate_after_years_annual : ℝ

/-- `GuaranteeFundState` from `engine/guarantee_funds.py`. -/
structure GuaranteeFundState where
  mfv : ℝ
  pfv : ℝ

/-- `mfv_annual_rate_for_policy_year` from `engine/guarantee_funds.py`
    (lines 52–61). -/
def mfv_annual_rate_for_policy_year (policy_year term_years : ℕ)
    (initial_rate min_guaranteed_rate : ℝ) : ℝ :=
  if policy_year ≤ term_years then initial_rate else min_guaranteed_rate

/-- `pfv_annual_rate_for_policy_year` from `engine/guarantee_funds.py`
    (lines 64–72). -/
def pfv_annual_rate_for_policy_year (policy_year : ℕ)
    (params : ProspectiveFundValueParams) : ℝ :=
  if policy_year ≤ params.rate_years then params.rate_annual
  else params.rate_after_years_annual

/-- `initialize_guarantee_funds` from `engine/guarantee_funds.py` (lines 75–86). -/
def initialize_guarantee_funds (premium : ℝ) (mfv_params : MinimumFundValueParams)
    (pfv_params : ProspectiveFundValueParams) : GuaranteeFundState :=
  { mfv := mfv_params.base_pct_of_premium * premium
    pfv := pfv_params.base_pct_of_premium * premium }

/-- `apply_surrender_to_guarantee_funds` from `engine/guarantee_funds.py`
    (lines 89–103): both tracks are reduced dollar-for-dollar by the (clamped)
    withdrawal and floored at 0. -/
def apply_surrender_to_guarantee_funds (state : GuaranteeFundState)
    (surrender_amount : ℝ) : GuaranteeFundState :=
  let wd := max 0 surrender_amount
  { mfv := max 0 (state.mfv - wd), pfv := max 0 (state.pfv - wd) }

/-- `credit_guarantee_funds_monthly` from `engine/guarantee_funds.py`
    (lines 106–134): one month of interest on each track at its policy-year
    dependent annual rate, converted via `monthly_rate_from_annual`. -/
noncomputable def credit_guarantee_funds_monthly (state : GuaranteeFundState)
    (policy_year term_years : ℕ) (initial_rate min_guaranteed_rate : ℝ)
    (pfv_params : ProspectiveFundValueParams) : GuaranteeFundState :=
  let mfv_r_m := monthly_rate_from_annual
    (mfv_annual_rate_for_policy_year policy_year term_years initial_rate
      min_guaranteed_rate)
  let pfv_r_m := monthly_rate_from_annual
    (pfv_annual_rate_for_policy_year policy_year pfv_params)
  { mfv := state.mfv * (1 + mfv_r_m), pfv := state.pfv * (1 + pfv_r_m) }

/-!
## Cash surrender value (`engine/csv.py`)

This is the function as actually defined in `engine/csv.py`.  Note that the
orchestrator (`engine/illustration.py` line 241) calls it with keyword
arguments (`av_eop`, `surrender_amount`, `free_remaining_at_calc`,
`mva_factor`, `gf_mfv_eop`, `gf_pfv_eop`) that this signature does not accept —
see the C1 theorem.
-/

/-- `CSVResult` from `engine/csv.py`. -/
structure CSVResult (α : Type) where
  csv : α
  csv_before_floors : α
  amount_subject_to_surrender_charge : α
  surrender_charge_pct_used : α
  surrender_charge_amount_used : α
  deriving Repr, DecidableEq

/-- `_calc_surrender_charge_amount` from `engine/csv.py` (lines 18–49). -/
def calc_surrender_charge_amount {α : Type} [LinearOrderedField α]
    (withdrawal_amount free_used_this_txn surrender_charge_pct : α)
    (surrender_charge_amount_override surrender_charge_pct_override : Option α) :
    α × α × α :=
  let w := max 0 withdrawal_amount
  let free_used := max 0 free_used_this_txn
  let amount_subject := max 0 (w - free_used)
  match surrender_charge_amount_override with
  | some ov =>
      let sc_amt := max 0 ov
      let pct_used := surrender_charge_pct_override.getD surrender_charge_pct
      (amount_subject, pct_used, sc_amt)
  | none =>
      let pct_used := max 0 (surrender_charge_pct_override.getD surrender_charge_pct)
      (amount_subject, pct_used, amount_subject * pct_used)

/-- `calculate_cash_surrender_value` from `engine/csv.py` (lines 52–123):
    `csv_before_floors = max(0, av - sc_amount_used + mva_amount)` and the final
    CSV is the maximum of that base and the optional `gmv_floor`/`nff_floor`. -/
def calculate_cash_surrender_value {α : Type} [LinearOrderedField α] (av : α)
    (surrender_charge_amount : Option α)
    (withdrawal_amount free_used_this_txn surrender_charge_pct : α)
    (surrender_charge_amount_override surrender_charge_pct_override : Option α)
    (mva_amount : α) (gmv_floor nff_floor : Option α) : CSVResult α :=
  let sourced :=
    match surrender_charge_amount, surrender_charge_amount_override with
    | some sc, none =>
        (max 0 (withdrawal_amount - free_used_this_txn), max 0 sc,
          surrender_charge_pct_override.getD surrender_charge_pct)
    | _, _ =>
        let (a, p, s) := calc_surrender_charge_amount withdrawal_amount
          free_used_this_txn surrender_charge_pct
          surrender_charge_amount_override surrender_charge_pct_override
        (a, s, p)
  let amount_subject := sourced.1
  let sc_amt_used := sourced.2.1
  let pct_used := sourced.2.2
  let base := max 0 (av - sc_amt_used + mva_amount)
  let with_gmv :=
    match gmv_floor with
    | some g => max base g
    | none => base
  let final_csv :=
    match nff_floor with
    | some f => max with_gmv f
    | none => with_gmv
  { csv := final_csv
    csv_before_floors := base
    amount_subject_to_surrender_charge := amount_subject
    surrender_charge_pct_used := pct_used
    surrender_charge_amount_used := sc_amt_used }

/-!
## Monthly projection orchestrator (`engine/illustration.py`)

`run_illustration` itself aborts before its monthly loop (see the C1 theorem):
line 145 reads `inputs.installment_years`, a field `IllustrationInputs` does not
define.  The monthly state evolution the loop body prescribes
(illustration.py lines 149–236: MVA factor, BOP snapshots, withdrawals,
guarantee funds, account-value roll-forward with the NFF floor, and the
interest accumulators) is embedded below as `monthStep`/`runIllustrationMonths`
so that the per-month properties of the loop can be stated.  The subsequent
CSV call (line 241) and the annuity-table year-end block (lines 263–286) use
interfaces that do not match their callees and are part of the C1 finding.
-/

/-- `build_annual_rate_schedule` from `engine/illustration.py` (lines 50–70),
    modelled as the year → rate map it builds: `initial_rate` through the term,
    then `max(renewal_rate, minimum_guaranteed_rate)`. -/
def build_annual_rate_schedule (term_years : ℕ)
    (initial_rate renewal_rate minimum_guaranteed_rate : ℝ) (yr : ℕ) : ℝ :=
  if yr ≤ term_years then initial_rate
  else max renewal_rate minimum_guaranteed_rate

/-- Projection length resolution from `engine/illustration.py` lines 92–96:
    a missing/non-positive `projection_years` (modelled as 0) defaults to the
    product term. -/
def resolve_projection_years {α : Type} (inputs : IllustrationInputs α)
    (term_years : ℕ) : ℕ :=
  if inputs.projection_years = 0 then term_years else inputs.projection_years

/-- `MinimumFundValueParams` as built by `run_illustration` (lines 123–125). -/
def mfvParamsOf (spec : ProductSpec ℝ) : MinimumFundValueParams :=
  { base_pct_of_premium := spec.features.guarantee_funds.mfv.base_pct_of_premium }

/-- `ProspectiveFundValueParams` as built by `run_illustration` (lines 127–131). -/
def pfvParamsOf (spec : ProductSpec ℝ) : ProspectiveFundValueParams :=
  { base_pct_of_premium := spec.features.guarantee_funds.pfv.base_pct_of_premium
    rate_annual := spec.features.guarantee_funds.pfv.rate_annual
    rate_years := spec.features.guarantee_funds.pfv.rate_years
    rate_after_years_annual := spec.features.guarantee_funds.pfv.rate_after_years_annual }

/-- The state carried month-to-month by the orchestrator loop
    (illustration.py lines 111–135 initialise it, lines 230–236 update it). -/
structure EngineState where
  av : ℝ
  gf : GuaranteeFundState
  wd_state : WithdrawalState ℝ
  prior_year_interest : ℝ
  current_year_interest_accum : ℝ

/-- State at issue (illustration.py lines 111–135). -/
noncomputable def initEngineState (spec : ProductSpec ℝ)
    (inputs : IllustrationInputs ℝ) : EngineState :=
  { av := inputs.premium
    gf := initialize_guarantee_funds inputs.premium (mfvParamsOf spec) (pfvParamsOf spec)
    wd_state := init_withdrawal_state
    prior_year_interest := 0
    current_year_interest_accum := 0 }

/-- One month's output row (the `meta_*`, `mva_*`, `wd_*`, `av_*`, `gf_*` fields
    assembled at illustration.py lines 289–357; the `csv_*`/`ann_*` fields come
    from the mismatched calls covered by C1 and are not modelled). -/
structure MonthlyRow where
  meta_policy_month : ℕ
  meta_policy_year : ℕ
  meta_month_in_policy_year : ℕ
  meta_annual_rate : ℝ
  mva_factor : ℝ
  wd_withdrawal_amount : ℝ
  wd_free_limit_ytd : ℝ
  wd_free_used_this_txn : ℝ
  wd_free_used_ytd_eop : ℝ
  wd_free_remaining_eop : ℝ
  wd_excess_amount : ℝ
  wd_surrender_charge_pct : ℝ
  wd_surrender_charge_amount : ℝ
  wd_mva_amount_subject : ℝ
  wd_mva_amount : ℝ
  wd_penalty_total : ℝ
  av_bop : ℝ
  av_after_withdrawal_and_penalty : ℝ
  av_interest_credit : ℝ
  av_eop_before_floor : ℝ
  av_nff_floor : ℝ
  av_eop : ℝ
  gf_mfv_bop : ℝ
  gf_mfv_eop : ℝ
  gf_pfv_bop : ℝ
  gf_pfv_eop : ℝ

/-- The month's MVA factor (illustration.py lines 157–177): 0 unless the
    product enables MVA and both index rates are provided; the months remaining
    default to `max(0, term_months - pm)` unless overridden. -/
noncomputable def monthMvaFactor (spec : ProductSpec ℝ)
    (inputs : IllustrationInputs ℝ) (pm : ℕ) : Except PyError ℝ :=
  match spec.features.mva.enabled, inputs.mva_initial_index_rate,
      inputs.mva_current_index_rate with
  | true, some x, some y =>
      let n_remaining : ℤ :=
        match inputs.mva_months_remaining_override with
        | some n => n
        | none => max 0 ((spec.term_years * 12 : ℕ) - (pm : ℤ))
      compute_mva_factor x y n_remaining
  | _, _, _ => pure 0

/-- The pure tail of the loop body (illustration.py lines 199–236 and the row
    assembly), given the month's MVA factor and withdrawal outcome. -/
noncomputable def monthStepPure (spec : ProductSpec ℝ)
    (inputs : IllustrationInputs ℝ) (pm : ℕ) (s : EngineState) (mva_factor : ℝ)
    (wd_state' : WithdrawalState ℝ) (wd_res : WithdrawalResult ℝ) :
    EngineState × MonthlyRow :=
  let term_years := spec.term_years
  let policy_year := (pm - 1) / 12 + 1
  let month_in_year := (pm - 1) % 12 + 1
  let annual_rate := build_annual_rate_schedule term_years inputs.initial_rate
    inputs.renewal_rate spec.features.minimum_guaranteed_rate policy_year
  let av_bop := s.av
  let gf_mfv_bop := s.gf.mfv
  let gf_pfv_bop := s.gf.pfv
  let gf1 := apply_surrender_to_guarantee_funds s.gf wd_res.withdrawal_amount
  let gf2 := credit_guarantee_funds_monthly gf1 policy_year term_years
    inputs.initial_rate spec.features.minimum_guaranteed_rate (pfvParamsOf spec)
  let av_result := roll_forward_account_value av_bop wd_res.withdrawal_amount
    wd_res.penalty_total annual_rate none
  let av_eop := av_result.av_eop
  let nff_floor := max gf2.mfv gf2.pfv
  let av_eop_floored := max av_eop nff_floor
  let cyi := s.current_year_interest_accum + av_result.interest_credit
  let prior' := if month_in_year = 12 then cyi else s.prior_year_interest
  let cyi' := if month_in_year = 12 then 0 else cyi
  ({ av := av_eop_floored
     gf := gf2
     wd_state := wd_state'
     prior_year_interest := prior'
     current_year_interest_accum := cyi' },
   { meta_policy_month := pm
     meta_policy_year := policy_year
     meta_month_in_policy_year := month_in_year
     meta_annual_rate := annual_rate
     mva_factor := mva_factor
     wd_withdrawal_amount := wd_res.withdrawal_amount
     wd_free_limit_ytd := wd_res.free_limit_ytd
     wd_free_used_this_txn := wd_res.free_used_this_txn
     wd_free_used_ytd_eop := wd_res.free_used_ytd_eop
     wd_free_remaining_eop := wd_res.free_remaining_eop
     wd_excess_amount := wd_res.excess_amount
     wd_surrender_charge_pct := wd_res.surrender_charge_pct
     wd_surrender_charge_amount := wd_res.surrender_charge_amount
     wd_mva_amount_subject := wd_res.mva_amount_subject
     wd_mva_amount := wd_res.mva_amount
     wd_penalty_total := wd_res.penalty_total
     av_bop := av_bop
     av_after_withdrawal_and_penalty := av_result.av_after_wd
     av_interest_credit := av_result.interest_credit
     av_eop_before_floor := av_eop
     av_nff_floor := nff_floor
     av_eop := av_eop_floored
     gf_mfv_bop := gf_mfv_bop
     gf_mfv_eop := gf2.mfv
     gf_pfv_bop := gf_pfv_bop
     gf_pfv_eop := gf2.pfv })

/-- One iteration of the orchestrator loop (illustration.py lines 149–236):
    month index `pm` counts from 1. -/
noncomputable def monthStep (catalog : ProductCatalog ℝ)
    (inputs : IllustrationInputs ℝ) (spec : ProductSpec ℝ) (pm : ℕ)
    (s : EngineState) : Except PyError (EngineState × MonthlyRow) := do
  let policy_year := (pm - 1) / 12 + 1
  let month_in_year := (pm - 1) % 12 + 1
  let mva_factor ← monthMvaFactor spec inputs pm
  let (wd_state', wd_res) ← calc_withdrawal_for_month catalog inputs s.wd_state
    policy_year month_in_year s.av s.av s.prior_year_interest mva_factor
  pure (monthStepPure spec inputs pm s mva_factor wd_state' wd_res)

/-- `k` consecutive iterations of the orchestrator loop starting at policy
    month `pm` in state `s`, collecting the monthly rows in order. -/
noncomputable def runIllustrationMonths (catalog : ProductCatalog ℝ)
    (inputs : IllustrationInputs ℝ) (spec : ProductSpec ℝ) :
    ℕ → ℕ → EngineState → Except PyError (List MonthlyRow)
  | 0, _, _ => .ok []
  | k + 1, pm, s => do
      let (s', row) ← monthStep catalog inputs spec pm s
      let rest ← runIllustrationMonths catalog inputs spec k (pm + 1) s'
      pure (row :: rest)

/-- `run_illustration` from `engine/illustration.py` (lines 73–359).
    `annuity_tables_load` stands for the outcome of the filesystem read at
    lines 142–143 (`load_annuity_tables`).  Control flow: resolve the product
    spec (line 88, may raise `ProductNotFoundError`), build the schedule and
    initial state (pure, lines 91–135), load the annuity tables (lines
    142–143), then line 145 evaluates `int(inputs.installment_years)` —
    `IllustrationInputs` (engine/inputs.py) defines no `installment_years`
    field, so the attribute access raises `AttributeError` unconditionally and
    the monthly loop is never entered. -/
noncomputable def run_illustration (catalog : ProductCatalog ℝ)
    (inputs : IllustrationInputs ℝ) (annuity_tables_load : Except PyError Unit) :
    Except PyError (List MonthlyRow) := do
  let spec ← catalog.get inputs.product_code
  let projection_years := resolve_projection_years inputs spec.term_years
  let _total_months := projection_years * 12
  let _s0 := initEngineState spec inputs
  let _ ← annuity_tables_load
  throw .attributeError

/-!
## CARVM reverse induction (`carvm/reserve.py`)

`compute_carvm_reserve_reverse_induction` takes the annual table (one row per
policy year, in ascending year order) and walks it from the last year backward.
The per-year candidate benefits are taken from the table columns
(lines 51–55: `Death = AV_EOY`, `Surrender = CSV_EOY` — the table produced by
the annual reducer carries a CSV for every year — and the annuitization
benefit computed per year from `AV_EOY`, lines 57–81, which enters here as the
`annb` input since it does not depend on the CARVM discount rate).  The
reverse induction itself is lines 84–129; its carried state is the next year's
maximum benefit and beginning-of-year withdrawal.  The arithmetic is modelled
over `ℚ`.
-/

/-- The `last_year_continuation_basis` flag of
    `compute_carvm_reserve_reverse_induction` (`"CSV"` or `"AV"`; any string
    other than `"AV"` selects the CSV branch, line 103). -/
inductive ContinuationBasis where
  | CSV : ContinuationBasis
  | AV : ContinuationBasis
  deriving Repr, DecidableEq

/-- One row of the annual table consumed by the reserve engine: ending account
    value, ending CSV, the year's annuitization benefit (`max` of the two PVs,
    computed upstream of the reverse induction), and the BOY withdrawal. -/
structure AnnualYearRow where
  av_eoy : ℚ
  csv_eoy : ℚ
  annb : ℚ
  wd : ℚ
  deriving Repr, DecidableEq

/-- The winning candidate recorded per year (line 124: Python
    `max(candidates, key=candidates.get)` returns the FIRST key attaining the
    maximum, in insertion order Death, Surrender, Annuitization, Continuation). -/
inductive WinningBenefit where
  | death : WinningBenefit
  | surrender : WinningBenefit
  | annuitization : WinningBenefit
  | continuation : WinningBenefit
  deriving Repr, DecidableEq

/-- One output row of the reserve engine (the columns written at
    lines 110–124). -/
structure ReserveRow where
  cont : ℚ
  maxBen : ℚ
  reserve : ℚ
  winning : WinningBenefit
  deriving Repr, DecidableEq

/-- First argmax in iteration order Death, Surrender, Annuitization,
    Continuation (line 124). -/
def winningBenefit (death surr annb cont : ℚ) : WinningBenefit :=
  if surr ≤ death ∧ annb ≤ death ∧ cont ≤ death then .death
  else if annb ≤ surr ∧ cont ≤ surr then .surrender
  else if cont ≤ annb then .annuitization
  else .continuation

/-- The last projected year's row (lines 102–106 and 110–124): the
    continuation benefit is the configured basis column, with no next-year
    input. -/
def carvmLastYearRow (i : ℚ) (basis : ContinuationBasis) (r : AnnualYearRow) :
    ReserveRow :=
  let disc := 1 / (1 + i)
  let death := r.av_eoy
  let surr := r.csv_eoy
  let cont := match basis with
    | .AV => r.av_eoy
    | .CSV => surr
  let max_ben := max (max (max death surr) r.annb) cont
  { cont := cont
    maxBen := max_ben
    reserve := max_ben * disc + r.wd
    winning := winningBenefit death surr r.annb cont }

/-- An earlier year's row (lines 107–124): the continuation benefit is
    `next_wd + next_max_benefit * disc`. -/
def carvmEarlierYearRow (i : ℚ) (r : AnnualYearRow) (next_wd next_max_benefit : ℚ) :
    ReserveRow :=
  let disc := 1 / (1 + i)
  let death := r.av_eoy
  let surr := r.csv_eoy
  let cont := next_wd + next_max_benefit * disc
  let max_ben := max (max (max death surr) r.annb) cont
  { cont := cont
    maxBen := max_ben
    reserve := max_ben * disc + r.wd
    winning := winningBenefit death surr r.annb cont }

/-- The reverse induction of lines 96–127 on the annual rows `r :: rest`
    (ascending year order): later years are finalised first, and the year below
    uses the next year's maximum benefit and withdrawal.  Returns
    (this year's row, the later years' rows). -/
def carvmAux (i : ℚ) (basis : ContinuationBasis) (r : AnnualYearRow) :
    List AnnualYearRow → ReserveRow × List ReserveRow
  | [] => (carvmLastYearRow i basis r, [])
  | r2 :: rest =>
      let prev := carvmAux i basis r2 rest
      (carvmEarlierYearRow i r r2.wd prev.1.maxBen, prev.1 :: prev.2)

/-- `compute_carvm_reserve_reverse_induction` from `carvm/reserve.py`
    (lines 12–129), restricted to its reverse-induction core: maps the annual
    table (ascending year order) to the reserve rows in the same order. -/
def compute_carvm_reserve_reverse_induction (i : ℚ) (basis : ContinuationBasis) :
    List AnnualYearRow → List ReserveRow
  | [] => []
  | r :: rest =>
      let p := carvmAux i basis r rest
      p.1 :: p.2

/-!
## Concrete fixtures

A 5-year MYGA product in the shape of the repository's `MYGA5.yml`
(5% initial crediting, complete five-year surrender-charge schedule, MVA off,
default guarantee-fund bases 87.5% / 90.7% with the 1.91%/10-year PFV
schedule), at both `ℚ` and `ℝ`, plus a loadable product whose surrender-charge
schedule does not cover every within-term year (the catalog parser in
`engine/catalog.py` performs no schedule-completeness validation).
-/

/-- A complete 5-year product over `ℚ`. -/
def specQ : ProductSpec ℚ :=
  { product_code := "MYGA5"
    term_years := 5
    features :=
      { minimum_guaranteed_rate := 1 / 100
        mva := { enabled := false }
        surrender_charge :=
          { schedule := [(1, 7 / 100), (2, 7 / 100), (3, 6 / 100), (4, 5 / 100), (5, 4 / 100)]
            after_term_default_charge_pct := 0 }
        fpw :=
          { enabled := true
            method := .pct_of_boy_account_value
            params_pct := some (1 / 10) }
        guarantee_funds :=
          { mfv := { base_pct_of_premium := 875 / 1000 }
            pfv :=
              { base_pct_of_premium := 907 / 1000
                rate_annual := 191 / 10000
                rate_years := 10
                rate_after_years_annual := 0 } } } }

/-- Catalog holding only `specQ`. -/
def catalogQ : ProductCatalog ℚ :=
  { get? := fun code => if code = "MYGA5" then some specQ else none }

/-- A loadable product whose schedule has an explicit entry only for year 1
    while the term is 5 years (nothing in `ProductCatalog._parse_spec`
    rejects this). -/
def specGap : ProductSpec ℚ :=
  { product_code := "GAP5"
    term_years := 5
    features :=
      { minimum_guaranteed_rate := 1 / 100
        mva := { enabled := false }
        surrender_charge :=
          { schedule := [(1, 7 / 100)]
            after_term_default_charge_pct := 0 }
        fpw :=
          { enabled := true
            method := .pct_of_boy_account_value
            params_pct := some (1 / 10) }
        guarantee_funds :=
          { mfv := { base_pct_of_premium := 875 / 1000 }
            pfv :=
              { base_pct_of_premium := 907 / 1000
                rate_annual := 191 / 10000
                rate_years := 10
                rate_after_years_annual := 0 } } } }

/-- Catalog holding only `specGap`. -/
def catalogGap : ProductCatalog ℚ :=
  { get? := fun code => if code = "GAP5" then some specGap else none }

/-- Inputs requesting a fixed 12,000 withdrawal (the C5 concrete scenario). -/
def inputsWd : IllustrationInputs ℚ :=
  { product_code := "MYGA5"
    premium := 100000
    issue_age := 60
    gender := "M"
    initial_rate := 5 / 100
    renewal_rate := 4 / 100
    withdrawal_method := .fixed_amount
    projection_years := 5
    withdrawal_value := 12000
    mva_initial_index_rate := none
    mva_current_index_rate := none
    mva_months_remaining_override := none }

/-- Withdrawal state at month 1 of policy year 2 with a 10,000 free budget
    fully remaining. -/
def stWd : WithdrawalState ℚ :=
  { policy_year := 2
    month_in_policy_year := 1
    free_limit_ytd := 10000
    free_used_ytd := 0
    free_remaining_ytd := 10000 }

/-- The state `calc_withdrawal_for_month` returns in the C5 concrete scenario. -/
def stWdAfter : WithdrawalState ℚ :=
  { policy_year := 2
    month_in_policy_year := 1
    free_limit_ytd := 10000
    free_used_ytd := 10000
    free_remaining_ytd := 0 }

/-- The result `calc_withdrawal_for_month` returns in the C5 concrete scenario. -/
def resWdAfter : WithdrawalResult ℚ :=
  { withdrawal_amount := 12000
    free_limit_ytd := 10000
    free_used_this_txn := 10000
    free_used_ytd_eop := 10000
    free_remaining_eop := 0
    excess_amount := 2000
    surrender_charge_pct := 7 / 100
    surrender_charge_amount := 140
    mva_factor := 0
    mva_amount_subject := 1860
    mva_amount := 0
    penalty_total := 140 }

/-- The same 5-year product over `ℝ` (for the orchestrator loop). -/
noncomputable def spec5 : ProductSpec ℝ :=
  { product_code := "MYGA5"
    term_years := 5
    features :=
      { minimum_guaranteed_rate := 1 / 100
        mva := { enabled := false }
        surrender_charge :=
          { schedule := [(1, 7 / 100), (2, 7 / 100), (3, 6 / 100), (4, 5 / 100), (5, 4 / 100)]
            after_term_default_charge_pct := 0 }
        fpw :=
          { enabled := true
            method := .pct_of_boy_account_value
            params_pct := some (1 / 10) }
        guarantee_funds :=
          { mfv := { base_pct_of_premium := 875 / 1000 }
            pfv :=
              { base_pct_of_premium := 907 / 1000
                rate_annual := 191 / 10000
                rate_years := 10
                rate_after_years_annual := 0 } } } }

/-- Catalog holding only `spec5`. -/
noncomputable def catalog5 : ProductCatalog ℝ :=
  { get? := fun code => if code = "MYGA5" then some spec5 else none }

/-- The C9 concrete scenario's inputs: premium 100,000, 5% initial crediting,
    no withdrawals, MVA off. -/
noncomputable def inputs5 : IllustrationInputs ℝ :=
  { product_code := "MYGA5"
    premium := 100000
    issue_age := 60
    gender := "M"
    initial_rate := 5 / 100
    renewal_rate := 4 / 100
    withdrawal_method := .fixed_amount
    projection_years := 5
    withdrawal_value := 0
    mva_initial_index_rate := none
    mva_current_index_rate := none
    mva_months_remaining_override := none }

/-- Monthly accumulation factor of the 5% annual crediting rate,
    `(1.05)^(1/12)`. -/
noncomputable def cAV5 : ℝ := (1 + 5 / 100 : ℝ) ^ ((1 : ℝ) / 12)

/-- Monthly accumulation factor of the 1.91% PFV rate, `(1.0191)^(1/12)`. -/
noncomputable def cPF5 : ℝ := (1 + 191 / 10000 : ℝ) ^ ((1 : ℝ) / 12)

/-- Non-negativity invariant on the orchestrator's carried state. -/
def EngineInv (s : EngineState) : Prop :=
  0 ≤ s.av ∧ 0 ≤ s.gf.mfv ∧ 0 ≤ s.gf.pfv

/-!
## Claim theorems
-/

/-- C1.  The claim says `run_illustration` returns normally on every valid
    catalog/input set with `projection_years × 12` rows.  The code cannot:
    after resolving the product spec and loading the annuity tables it
    evaluates `int(inputs.installment_years)` (illustration.py line 145), but
    `IllustrationInputs` (engine/inputs.py) defines no `installment_years`
    field, so every call raises `AttributeError` before the monthly loop runs.
    This theorem shows no execution of `run_illustration` returns normally. -/
theorem C1_run_illustration_never_returns (catalog : ProductCatalog ℝ)
    (inputs : IllustrationInputs ℝ) (tl : Except PyError Unit) :
    exceptIsOk (run_illustration catalog inputs tl) = false := by
  rcases hc : catalog.get? inputs.product_code with _ | spec <;>
    rcases tl with e | u <;>
      · simp only [run_illustration, ProductCatalog.get, hc]
        rfl

/-- C2.  Reverse-induction formulas of `compute_carvm_reserve_reverse_induction`
    (carvm/reserve.py lines 96–127): for the final projected year the reserve
    is `max(Death, Surrender, Annuitization, Continuation) / (1+i)` plus that
    year's BOY withdrawal, with the continuation benefit equal to the
    configured last-year basis column (ending CSV for basis CSV, ending account
    value for basis AV) and, structurally, no next-year input; for every
    earlier year the continuation benefit is
    `next_year_withdrawal + next_year_maximum_benefit / (1+i)`. -/
theorem C2_carvm_backward_consistency (i : ℚ) (b : ContinuationBasis)
    (r r2 : AnnualYearRow) (rest : List AnnualYearRow) :
    ((carvmAux i b r []).1.cont
        = (match b with | .CSV => r.csv_eoy | .AV => r.av_eoy)
      ∧ (carvmAux i b r []).1.reserve
        = max (max (max r.av_eoy r.csv_eoy) r.annb) ((carvmAux i b r []).1.cont)
            / (1 + i) + r.wd)
    ∧ (carvmAux i b r (r2 :: rest)).1.cont
        = r2.wd + (carvmAux i b r2 rest).1.maxBen / (1 + i) := by
  refine ⟨⟨?_, ?_⟩, ?_⟩
  · cases b <;> rfl
  · simp only [carvmAux, carvmLastYearRow, mul_one_div]
  · simp only [carvmAux, carvmEarlierYearRow, mul_one_div]

/-- C6.  `compute_mva_factor` returns 0 whenever `N ≤ 0` regardless of the
    rates (the N-guard is checked first), raises `ValueError` when `N > 0` and
    `1+X ≤ 0` or `1+Y ≤ 0`, and otherwise returns
    `((1+X)/(1+Y))^(N/12) - 1`; at X=0.04, Y=0.05, N=12 the factor is
    `(1.04/1.05) - 1`. -/
theorem C6_mva_factor_spec :
    (∀ (x y : ℝ) (n : ℤ), n ≤ 0 → compute_mva_factor x y n = .ok 0)
    ∧ (∀ (x y : ℝ) (n : ℤ), 0 < n → (1 + x ≤ 0 ∨ 1 + y ≤ 0) →
        compute_mva_factor x y n = .error .valueError)
    ∧ (∀ (x y : ℝ) (n : ℤ), 0 < n → 0 < 1 + x → 0 < 1 + y →
        compute_mva_factor x y n = .ok (((1 + x) / (1 + y)) ^ ((n : ℝ) / 12) - 1))
    ∧ compute_mva_factor (4 / 100) (5 / 100) 12
        = .ok ((1 + 4 / 100) / (1 + 5 / 100) - 1) := by
  refine ⟨?_, ?_, ?_, ?_⟩
  · intro x y n h
    simp [compute_mva_factor, h]
  · intro x y n h hxy
    rw [compute_mva_factor, if_neg (by omega), if_pos hxy]
  · intro x y n h hx hy
    rw [compute_mva_factor, if_neg (by omega), if_neg (by push_neg; constructor <;> linarith)]
  · rw [compute_mva_factor, if_neg (by omega), if_neg (by push_neg; constructor <;> norm_num)]
    have h12 : (((12 : ℤ) : ℝ)) / 12 = 1 := by norm_num
    rw [h12, Real.rpow_one]

/-- Reduction of a successful `Except` bind (do-notation helper). -/
theorem exceptOkBind {e a b : Type} (x : a) (f : a → Except e b) :
    (Except.ok x >>= f) = f x := rfl

/-- Reduction of a failing `Except` bind (do-notation helper). -/
theorem exceptErrorBind {e a b : Type} (err : e) (f : a → Except e b) :
    ((Except.error err : Except e a) >>= f) = .error err := rfl

/-- Reduction of a mapped successful `Except` (do-notation helper). -/
theorem exceptMapOk {e a b : Type} (x : a) (f : a → b) :
    (f <$> (Except.ok x : Except e a)) = .ok (f x) := rfl

/-- Reduction of a mapped failing `Except` (do-notation helper). -/
theorem exceptMapError {e a b : Type} (err : e) (f : a → b) :
    (f <$> (Except.error err : Except e a)) = .error err := rfl

/-- Reduction of `pure` for `Except` (do-notation helper). -/
theorem exceptPure {e a : Type} (x : a) : (pure x : Except e a) = .ok x := rfl

/-- C7 counterexample.  The claim says the surrender-charge resolver returns a
    value without raising for every loaded product and policy year ≥ 1.  A
    loadable product whose schedule lacks an explicit entry for a within-term
    year (`specGap`: term 5, schedule covering only year 1 — the parser in
    `engine/catalog.py` never checks schedule completeness) makes the resolver
    raise `ProductSpecValidationError` at year 2. -/
theorem C7_counterexample_gap_year :
    catalogGap.surrender_charge "GAP5" 2 = .error .productSpecValidation := by
  rfl

/-- C7 amended.  For every loaded product and policy year: past the term the
    resolver returns the after-term default unconditionally; within the term it
    returns the schedule's explicit entry when present and raises
    `ProductSpecValidationError` when the schedule lacks the year. -/
theorem C7_surrender_charge_resolution {α : Type} [LinearOrderedField α]
    (c : ProductCatalog α) (code : String) (spec : ProductSpec α) (y : ℕ)
    (hget : c.get? code = some spec) :
    (spec.term_years < y →
      c.surrender_charge code y
        = .ok spec.features.surrender_charge.after_term_default_charge_pct)
    ∧ (y ≤ spec.term_years →
      c.surrender_charge code y
        = match spec.features.surrender_charge.schedule.lookup y with
          | some v => .ok v
          | none => .error .productSpecValidation) := by
  constructor
  · intro hy
    simp only [ProductCatalog.surrender_charge, ProductCatalog.get, hget, exceptOkBind]
    rw [if_neg (by omega)]
    rfl
  · intro hy
    simp only [ProductCatalog.surrender_charge, ProductCatalog.get, hget, exceptOkBind]
    rw [if_pos hy]
    cases spec.features.surrender_charge.schedule.lookup y <;> rfl

/-- Witness for the C7 amended theorem: on the complete `specQ` product, year 6
    exceeds the 5-year term and resolves to the after-term default 0. -/
theorem C7_surrender_charge_resolution_witness :
    catalogQ.get? "MYGA5" = some specQ ∧
    catalogQ.surrender_charge "MYGA5" 6 = .ok 0 := by
  have h : catalogQ.get? "MYGA5" = some specQ := rfl
  refine ⟨h, ?_⟩
  have := (C7_surrender_charge_resolution catalogQ "MYGA5" specQ 6 h).1 (by norm_num [specQ])
  simpa [specQ] using this

/-- When the year-start branch does not fire, `_refresh_year_state_if_needed`
    carries the free-budget quantities through unchanged (it at most updates
    the month index). -/
theorem refresh_preserves_budget {α : Type} [LinearOrderedField α]
    {cat : ProductCatalog α} {inputs : IllustrationInputs α}
    {st : WithdrawalState α} {py m : ℕ} {ybop pyi : α} {st0 : WithdrawalState α}
    (hok : refresh_year_state_if_needed cat inputs st py m ybop pyi = .ok st0)
    (hcond : ¬ (py ≠ st.policy_year ∧ m = 1)) :
    st0.free_limit_ytd = st.free_limit_ytd ∧ st0.free_used_ytd = st.free_used_ytd ∧
    st0.free_remaining_ytd = st.free_remaining_ytd := by
  rcases hg : cat.get? inputs.product_code with _ | spec
  · simp only [refresh_year_state_if_needed, ProductCatalog.get, hg,
      exceptErrorBind] at hok
    cases hok
  · simp only [refresh_year_state_if_needed, ProductCatalog.get, hg,
      exceptOkBind] at hok
    rw [if_neg hcond] at hok
    by_cases h2 : m ≠ st.month_in_policy_year
    · rw [if_pos h2] at hok
      cases hok
      exact ⟨rfl, rfl, rfl⟩
    · rw [if_neg h2] at hok
      cases hok
      exact ⟨rfl, rfl, rfl⟩

/-- In a non-withdrawal month (`¬(month = 1 ∧ year ≥ 2)`),
    `calc_withdrawal_for_month` returns the refreshed state unchanged together
    with the all-zero result built from it. -/
theorem calc_withdrawal_zero_branch {α : Type} [LinearOrderedField α]
    {cat : ProductCatalog α} {inputs : IllustrationInputs α}
    {st : WithdrawalState α} {py m : ℕ} {av ybop pyi fac : α}
    {st' : WithdrawalState α} {res : WithdrawalResult α}
    (hok : calc_withdrawal_for_month cat inputs st py m av ybop pyi fac
      = .ok (st', res))
    (hnot : ¬ (m = 1 ∧ 2 ≤ py)) :
    ∃ st0, refresh_year_state_if_needed cat inputs st py m ybop pyi = .ok st0
      ∧ st' = st0
      ∧ res =
        { withdrawal_amount := 0
          free_limit_ytd := st0.free_limit_ytd
          free_used_this_txn := 0
          free_used_ytd_eop := st0.free_used_ytd
          free_remaining_eop := st0.free_remaining_ytd
          excess_amount := 0
          surrender_charge_pct := 0
          surrender_charge_amount := 0
          mva_factor := fac
          mva_amount_subject := 0
          mva_amount := 0
          penalty_total := 0 } := by
  rcases href : refresh_year_state_if_needed cat inputs st py m ybop pyi with _ | st0
  · simp only [calc_withdrawal_for_month, href, exceptErrorBind] at hok
    cases hok
  · simp only [calc_withdrawal_for_month, href, exceptOkBind] at hok
    rw [if_pos hnot] at hok
    have hpair := Except.ok.inj hok
    exact ⟨st0, rfl, (congrArg Prod.fst hpair).symm, (congrArg Prod.snd hpair).symm⟩

/-- C10.  In a projection, a non-zero withdrawal can only occur at month 1 of
    a policy year ≥ 2: in every other month (month 1 of year 1, and any
    month ≠ 1) `calc_withdrawal_for_month` returns a zero withdrawal with zero
    excess/charge/MVA/penalty and carries the free-budget quantities of the
    incoming state through unchanged.  The hypothesis `py = 1 →
    st.policy_year = 1` reflects the carried state of the orchestrator loop,
    which starts year 1 with `init_withdrawal_state` (policy year 1). -/
theorem C10_zero_withdrawal_months {α : Type} [LinearOrderedField α]
    (cat : ProductCatalog α) (inputs : IllustrationInputs α)
    (st : WithdrawalState α) (py m : ℕ) (av ybop pyi fac : α)
    (st' : WithdrawalState α) (res : WithdrawalResult α)
    (hok : calc_withdrawal_for_month cat inputs st py m av ybop pyi fac
      = .ok (st', res))
    (hnot : ¬ (m = 1 ∧ 2 ≤ py)) (hpy : 1 ≤ py)
    (hst : py = 1 → st.policy_year = 1) :
    res.withdrawal_amount = 0 ∧ res.excess_amount = 0 ∧
    res.surrender_charge_amount = 0 ∧ res.mva_amount = 0 ∧
    res.penalty_total = 0 ∧
    st'.free_limit_ytd = st.free_limit_ytd ∧
    st'.free_used_ytd = st.free_used_ytd ∧
    st'.free_remaining_ytd = st.free_remaining_ytd ∧
    res.free_limit_ytd = st.free_limit_ytd ∧
    res.free_used_ytd_eop = st.free_used_ytd ∧
    res.free_remaining_eop = st.free_remaining_ytd := by
  obtain ⟨st0, href, hst', hres⟩ := calc_withdrawal_zero_branch hok hnot
  have hcond : ¬ (py ≠ st.policy_year ∧ m = 1) := by
    rintro ⟨hne, rfl⟩
    have h1 : py = 1 := by
      rcases Nat.lt_or_ge py 2 with h | h
      · omega
      · exact absurd ⟨rfl, h⟩ hnot
    exact hne (h1 ▸ (hst h1).symm)
  obtain ⟨e1, e2, e3⟩ := refresh_preserves_budget href hcond
  subst hst' hres
  exact ⟨rfl, rfl, rfl, rfl, rfl, e1, e2, e3, e1, e2, e3⟩

/-- Witness for C10: the very first projected month (year 1, month 1, initial
    state) yields a zero withdrawal and leaves the zero budget unchanged. -/
theorem C10_zero_withdrawal_months_witness :
    (calc_withdrawal_for_month catalogQ inputsWd init_withdrawal_state 1 1
        (100000 : ℚ) 100000 0 0 = .ok (init_withdrawal_state,
          { withdrawal_amount := 0
            free_limit_ytd := 0
            free_used_this_txn := 0
            free_used_ytd_eop := 0
            free_remaining_eop := 0
            excess_amount := 0
            surrender_charge_pct := 0
            surrender_charge_amount := 0
            mva_factor := 0
            mva_amount_subject := 0
            mva_amount := 0
            penalty_total := 0 }))
    ∧ ({ withdrawal_amount := 0
         free_limit_ytd := 0
         free_used_this_txn := 0
         free_used_ytd_eop := 0
         free_remaining_eop := 0
         excess_amount := 0
         surrender_charge_pct := 0
         surrender_charge_amount := 0
         mva_factor := 0
         mva_amount_subject := 0
         mva_amount := 0
         penalty_total := 0 } : WithdrawalResult ℚ).withdrawal_amount = 0 := by
  have hok : calc_withdrawal_for_month catalogQ inputsWd init_withdrawal_state 1 1
      (100000 : ℚ) 100000 0 0 = .ok (init_withdrawal_state,
        { withdrawal_amount := 0
          free_limit_ytd := 0
          free_used_this_txn := 0
          free_used_ytd_eop := 0
          free_remaining_eop := 0
          excess_amount := 0
          surrender_charge_pct := 0
          surrender_charge_amount := 0
          mva_factor := 0
          mva_amount_subject := 0
          mva_amount := 0
          penalty_total := 0 }) := by rfl
  exact ⟨hok, (C10_zero_withdrawal_months catalogQ inputsWd init_withdrawal_state 1 1
    100000 100000 0 0 _ _ hok (by omega) (by omega) (fun _ => rfl)).1⟩

/-- C5.  In a withdrawal month (month 1 of a policy year ≥ 2),
    `calc_withdrawal_for_month` clamps the request to the BOM account value,
    splits it into a free portion bounded by the (refreshed) remaining free
    budget and an excess portion, charges the year's resolved surrender-charge
    percentage only on the excess, takes the MVA-subject amount to be
    `max(0, excess − surrender charge)`, sets the MVA amount to subject ×
    factor, and totals the penalty as charge + MVA; concretely, a 12,000
    request against a 10,000 remaining free budget at a 7% charge gives
    excess 2,000 and surrender charge exactly 140. -/
theorem C5_withdrawal_split :
    (∀ {α : Type} [LinearOrderedField α] (cat : ProductCatalog α)
      (inputs : IllustrationInputs α) (st : WithdrawalState α) (py m : ℕ)
      (av ybop pyi fac : α) (st' : WithdrawalState α) (res : WithdrawalResult α),
      calc_withdrawal_for_month cat inputs st py m av ybop pyi fac
          = .ok (st', res) →
      m = 1 → 2 ≤ py →
      ∃ st0 pct,
        refresh_year_state_if_needed cat inputs st py m ybop pyi = .ok st0
        ∧ cat.surrender_charge inputs.product_code py = .ok pct
        ∧ res.withdrawal_amount
            = min (max 0 (compute_user_withdrawal_amount inputs py ybop pyi)) (max 0 av)
        ∧ res.free_used_this_txn
            = min res.withdrawal_amount (max 0 st0.free_remaining_ytd)
        ∧ res.excess_amount = max 0 (res.withdrawal_amount - res.free_used_this_txn)
        ∧ res.surrender_charge_pct = pct
        ∧ res.surrender_charge_amount = res.excess_amount * pct
        ∧ res.mva_amount_subject
            = max 0 (res.excess_amount - res.surrender_charge_amount)
        ∧ res.mva_amount = res.mva_amount_subject * fac
        ∧ res.penalty_total = res.surrender_charge_amount + res.mva_amount)
    ∧ (calc_withdrawal_for_month catalogQ inputsWd stWd 2 1 (50000 : ℚ) 50000 0 0
          = .ok (stWdAfter, resWdAfter)
        ∧ resWdAfter.excess_amount = 2000
        ∧ resWdAfter.surrender_charge_amount = 140) := by
  constructor
  · intro α instF cat inputs st py m av ybop pyi fac st' res hok hm hpy2
    rcases href : refresh_year_state_if_needed cat inputs st py m ybop pyi with _ | st0
    · simp only [calc_withdrawal_for_month, href, exceptErrorBind] at hok
      cases hok
    · simp only [calc_withdrawal_for_month, href, exceptOkBind] at hok
      rw [if_neg (not_not_intro ⟨hm, hpy2⟩)] at hok
      rcases hsc : cat.surrender_charge inputs.product_code py with _ | pct
      · rw [hsc] at hok
        cases hok
      · rw [hsc] at hok
        have hpair := Except.ok.inj hok
        have hres : res = _ := (congrArg Prod.snd hpair).symm
        subst hres
        exact ⟨st0, pct, rfl, rfl, rfl, rfl, rfl, rfl, rfl, rfl, rfl, rfl⟩
  · refine ⟨?_, rfl, rfl⟩
    simp [calc_withdrawal_for_month, refresh_year_state_if_needed, ProductCatalog.get,
      ProductCatalog.surrender_charge, catalogQ, inputsWd, stWd, specQ,
      compute_user_withdrawal_amount, stWdAfter, resWdAfter, min_def, max_def,
      List.lookup, exceptOkBind, exceptErrorBind, exceptMapOk, exceptMapError,
      exceptPure]
    norm_num

/-- Witness for C5: the concrete scenario satisfies the general theorem's
    hypotheses, and its conclusion gives the clamped withdrawal amount. -/
theorem C5_withdrawal_split_witness :
    (calc_withdrawal_for_month catalogQ inputsWd stWd 2 1 (50000 : ℚ) 50000 0 0
        = .ok (stWdAfter, resWdAfter))
    ∧ ∃ st0 pct,
        refresh_year_state_if_needed catalogQ inputsWd stWd 2 1 50000 0 = .ok st0
        ∧ catalogQ.surrender_charge inputsWd.product_code 2 = .ok pct
        ∧ resWdAfter.withdrawal_amount
            = min (max 0 (compute_user_withdrawal_amount inputsWd 2 50000 0)) (max 0 50000) := by
  have hok : calc_withdrawal_for_month catalogQ inputsWd stWd 2 1 (50000 : ℚ) 50000 0 0
      = .ok (stWdAfter, resWdAfter) := C5_withdrawal_split.2.1
  obtain ⟨st0, pct, h1, h2, h3, _⟩ := C5_withdrawal_split.1 catalogQ inputsWd stWd 2 1
    50000 50000 0 0 stWdAfter resWdAfter hok rfl (by omega)
  exact ⟨hok, st0, pct, h1, h2, h3⟩

/-- Witness for C6: the N-guard at N = 0 and the domain error at X = −2. -/
theorem C6_mva_factor_spec_witness :
    ((0 : ℤ) ≤ 0 ∧ compute_mva_factor 0 0 0 = .ok 0)
    ∧ ((0 : ℤ) < 5 ∧ (1 + (-2 : ℝ) ≤ 0 ∨ 1 + (0 : ℝ) ≤ 0)
        ∧ compute_mva_factor (-2) 0 5 = .error .valueError) :=
  ⟨⟨le_refl 0, C6_mva_factor_spec.1 0 0 0 (le_refl 0)⟩,
    ⟨by norm_num, Or.inl (by norm_num),
      C6_mva_factor_spec.2.1 (-2) 0 5 (by norm_num) (Or.inl (by norm_num))⟩⟩

/-- Nonnegativity of the four-way benefit maximum when the death candidate is
    non-negative. -/
theorem le_max_benefit {a b c d : ℚ} (h : 0 ≤ a) : 0 ≤ max (max (max a b) c) d :=
  le_trans h (le_trans (le_max_left a b)
    (le_trans (le_max_left _ c) (le_max_left _ d)))

/-- Monotonicity of the reverse induction in the CARVM discount rate: with all
    candidate benefits and withdrawals non-negative, a higher rate gives a
    pointwise lower (or equal) maximum benefit and reserve at every year. -/
theorem carvmAux_rate_mono (b : ContinuationBasis) (i1 i2 : ℚ) (h1 : -1 < i1)
    (h12 : i1 ≤ i2) :
    ∀ (rest : List AnnualYearRow) (r : AnnualYearRow),
    (0 ≤ r.av_eoy ∧ 0 ≤ r.csv_eoy ∧ 0 ≤ r.annb ∧ 0 ≤ r.wd) →
    (∀ x ∈ rest, 0 ≤ x.av_eoy ∧ 0 ≤ x.csv_eoy ∧ 0 ≤ x.annb ∧ 0 ≤ x.wd) →
    ((carvmAux i2 b r rest).1.maxBen ≤ (carvmAux i1 b r rest).1.maxBen
      ∧ 0 ≤ (carvmAux i2 b r rest).1.maxBen
      ∧ (carvmAux i2 b r rest).1.reserve ≤ (carvmAux i1 b r rest).1.reserve
      ∧ List.Forall₂ (fun a c => c.reserve ≤ a.reserve)
          (carvmAux i1 b r rest).2 (carvmAux i2 b r rest).2) := by
  have hpos1 : (0 : ℚ) < 1 + i1 := by linarith
  have hpos2 : (0 : ℚ) < 1 + i2 := by linarith
  have hdisc2 : (0 : ℚ) ≤ 1 / (1 + i2) := div_nonneg zero_le_one (le_of_lt hpos2)
  have hdisc : 1 / (1 + i2) ≤ 1 / (1 + i1) :=
    one_div_le_one_div_of_le hpos1 (by linarith)
  intro rest
  induction rest with
  | nil =>
    intro r hr _
    obtain ⟨ha, hc, hb, hw⟩ := hr
    cases b <;>
      · simp only [carvmAux, carvmLastYearRow]
        refine ⟨le_refl _, le_max_benefit ha, ?_, List.Forall₂.nil⟩
        exact add_le_add_right
          (mul_le_mul_of_nonneg_left hdisc (le_max_benefit ha)) _
  | cons r2 rest ih =>
    intro r hr hmem
    obtain ⟨ha, hc, hb, hw⟩ := hr
    obtain ⟨hmb, hM2, hres, hF⟩ := ih r2 (hmem r2 (by simp))
      (fun x hx => hmem x (by simp [hx]))
    have hM1 : (0 : ℚ) ≤ (carvmAux i1 b r2 rest).1.maxBen := le_trans hM2 hmb
    have hcont : r2.wd + (carvmAux i2 b r2 rest).1.maxBen * (1 / (1 + i2))
        ≤ r2.wd + (carvmAux i1 b r2 rest).1.maxBen * (1 / (1 + i1)) :=
      add_le_add_left (mul_le_mul hmb hdisc hdisc2 hM1) _
    have hmax : max (max (max r.av_eoy r.csv_eoy) r.annb)
          (r2.wd + (carvmAux i2 b r2 rest).1.maxBen * (1 / (1 + i2)))
        ≤ max (max (max r.av_eoy r.csv_eoy) r.annb)
          (r2.wd + (carvmAux i1 b r2 rest).1.maxBen * (1 / (1 + i1))) :=
      max_le_max (le_refl _) hcont
    have hMx2 : (0 : ℚ) ≤ max (max (max r.av_eoy r.csv_eoy) r.annb)
        (r2.wd + (carvmAux i2 b r2 rest).1.maxBen * (1 / (1 + i2))) :=
      le_max_benefit ha
    have hMx1 : (0 : ℚ) ≤ max (max (max r.av_eoy r.csv_eoy) r.annb)
        (r2.wd + (carvmAux i1 b r2 rest).1.maxBen * (1 / (1 + i1))) :=
      le_trans hMx2 hmax
    have hresv : max (max (max r.av_eoy r.csv_eoy) r.annb)
          (r2.wd + (carvmAux i2 b r2 rest).1.maxBen * (1 / (1 + i2)))
            * (1 / (1 + i2)) + r.wd
        ≤ max (max (max r.av_eoy r.csv_eoy) r.annb)
          (r2.wd + (carvmAux i1 b r2 rest).1.maxBen * (1 / (1 + i1)))
            * (1 / (1 + i1)) + r.wd :=
      add_le_add_right (mul_le_mul hmax hdisc hdisc2 hMx1) _
    exact ⟨hmax, hMx2, hresv, List.Forall₂.cons hres hF⟩

/-- C3.  With a fixed annual table of non-negative benefit candidates and
    withdrawals, raising the CARVM discount rate from `i1` to `i2` (both
    > −1) never increases any year's Reserve (BOY). -/
theorem C3_reserve_rate_monotonicity (ys : List AnnualYearRow)
    (b : ContinuationBasis) (i1 i2 : ℚ) (h1 : -1 < i1) (h12 : i1 ≤ i2)
    (hnn : ∀ x ∈ ys, 0 ≤ x.av_eoy ∧ 0 ≤ x.csv_eoy ∧ 0 ≤ x.annb ∧ 0 ≤ x.wd) :
    List.Forall₂ (fun a c => c.reserve ≤ a.reserve)
      (compute_carvm_reserve_reverse_induction i1 b ys)
      (compute_carvm_reserve_reverse_induction i2 b ys) := by
  cases ys with
  | nil => exact List.Forall₂.nil
  | cons r rest =>
    obtain ⟨hmb, hM2, hres, hF⟩ := carvmAux_rate_mono b i1 i2 h1 h12 rest r
      (hnn r (by simp)) (fun x hx => hnn x (by simp [hx]))
    exact List.Forall₂.cons hres hF

/-- Witness for C3: a two-year table at rates 3% vs 5%. -/
theorem C3_reserve_rate_monotonicity_witness :
    (-1 < (3 : ℚ) / 100) ∧ (3 : ℚ) / 100 ≤ 5 / 100 ∧
    (∀ x ∈ ([⟨100, 95, 90, 0⟩, ⟨105, 100, 92, 5⟩] : List AnnualYearRow),
      0 ≤ x.av_eoy ∧ 0 ≤ x.csv_eoy ∧ 0 ≤ x.annb ∧ 0 ≤ x.wd) ∧
    List.Forall₂ (fun a c => c.reserve ≤ a.reserve)
      (compute_carvm_reserve_reverse_induction (3 / 100) .CSV
        [⟨100, 95, 90, 0⟩, ⟨105, 100, 92, 5⟩])
      (compute_carvm_reserve_reverse_induction (5 / 100) .CSV
        [⟨100, 95, 90, 0⟩, ⟨105, 100, 92, 5⟩]) := by
  have hmem : ∀ x ∈ ([⟨100, 95, 90, 0⟩, ⟨105, 100, 92, 5⟩] : List AnnualYearRow),
      0 ≤ x.av_eoy ∧ 0 ≤ x.csv_eoy ∧ 0 ≤ x.annb ∧ 0 ≤ x.wd := by
    intro x hx
    simp only [List.mem_cons, List.mem_singleton, List.not_mem_nil, or_false] at hx
    rcases hx with rfl | rfl <;> refine ⟨by norm_num, by norm_num, by norm_num, by norm_num⟩
  exact ⟨by norm_num, by norm_num, hmem,
    C3_reserve_rate_monotonicity _ .CSV (3 / 100) (5 / 100) (by norm_num)
      (by norm_num) hmem⟩

/-- Decomposition of one successful orchestrator month: the MVA factor and the
    withdrawal call succeeded and the output is the pure tail applied to
    them. -/
theorem monthStep_ok {catalog : ProductCatalog ℝ} {inputs : IllustrationInputs ℝ}
    {spec : ProductSpec ℝ} {pm : ℕ} {s : EngineState}
    {out : EngineState × MonthlyRow}
    (hok : monthStep catalog inputs spec pm s = .ok out) :
    ∃ fac wd_state' wd_res,
      monthMvaFactor spec inputs pm = .ok fac ∧
      calc_withdrawal_for_month catalog inputs s.wd_state ((pm - 1) / 12 + 1)
          ((pm - 1) % 12 + 1) s.av s.av s.prior_year_interest fac
        = .ok (wd_state', wd_res) ∧
      out = monthStepPure spec inputs pm s fac wd_state' wd_res := by
  rcases hm : monthMvaFactor spec inputs pm with _ | fac
  · simp only [monthStep, hm, exceptErrorBind] at hok
    cases hok
  · simp only [monthStep, hm, exceptOkBind] at hok
    rcases hc : calc_withdrawal_for_month catalog inputs s.wd_state
        ((pm - 1) / 12 + 1) ((pm - 1) % 12 + 1) s.av s.av s.prior_year_interest fac
      with _ | p
    · rw [hc] at hok
      cases hok
    · rw [hc] at hok
      obtain ⟨ws, res⟩ := p
      exact ⟨fac, ws, res, rfl, hc, (Except.ok.inj hok).symm⟩

/-- Decomposition of a successful run of `k+1` months into its first step and
    the remaining `k` months. -/
theorem runMonths_ok_cons {catalog : ProductCatalog ℝ}
    {inputs : IllustrationInputs ℝ} {spec : ProductSpec ℝ} {k pm : ℕ}
    {s : EngineState} {rows : List MonthlyRow}
    (hok : runIllustrationMonths catalog inputs spec (k + 1) pm s = .ok rows) :
    ∃ out rest, monthStep catalog inputs spec pm s = .ok out ∧
      runIllustrationMonths catalog inputs spec k (pm + 1) out.1 = .ok rest ∧
      rows = out.2 :: rest := by
  rcases hs : monthStep catalog inputs spec pm s with _ | out
  · simp only [runIllustrationMonths, hs, exceptErrorBind] at hok
    cases hok
  · simp only [runIllustrationMonths, hs, exceptOkBind] at hok
    obtain ⟨s', row⟩ := out
    rcases hr : runIllustrationMonths catalog inputs spec k (pm + 1) s' with _ | rest
    · rw [hr] at hok
      cases hok
    · rw [hr] at hok
      exact ⟨(s', row), rest, rfl, hr, (Except.ok.inj hok).symm⟩

/-- The row assembled by the pure month tail records the floored ending
    account value: it dominates both guarantee-fund EOP balances and the
    pre-floor ending value. -/
theorem monthStepPure_row_floor (spec : ProductSpec ℝ)
    (inputs : IllustrationInputs ℝ) (pm : ℕ) (s : EngineState) (fac : ℝ)
    (ws : WithdrawalState ℝ) (res : WithdrawalResult ℝ) :
    max (monthStepPure spec inputs pm s fac ws res).2.gf_mfv_eop
        (monthStepPure spec inputs pm s fac ws res).2.gf_pfv_eop
      ≤ (monthStepPure spec inputs pm s fac ws res).2.av_eop
    ∧ (monthStepPure spec inputs pm s fac ws res).2.av_eop_before_floor
      ≤ (monthStepPure spec inputs pm s fac ws res).2.av_eop := by
  simp only [monthStepPure]
  exact ⟨le_max_right _ _, le_max_left _ _⟩

/-- C4.  Every monthly row the orchestrator loop produces satisfies
    `av_eop ≥ max(gf_mfv_eop, gf_pfv_eop)` and `av_eop ≥ av_eop_before_floor`
    (the floor step only raises the account value); likewise
    `roll_forward_account_value` with an explicit floor only raises the rolled
    value and dominates the floor. -/
theorem C4_av_floor_invariant :
    (∀ (catalog : ProductCatalog ℝ) (inputs : IllustrationInputs ℝ)
        (spec : ProductSpec ℝ) (k pm : ℕ) (s : EngineState)
        (rows : List MonthlyRow),
      runIllustrationMonths catalog inputs spec k pm s = .ok rows →
      ∀ row ∈ rows,
        max row.gf_mfv_eop row.gf_pfv_eop ≤ row.av_eop
        ∧ row.av_eop_before_floor ≤ row.av_eop)
    ∧ (∀ (av_bop wd pen r f : ℝ),
        f ≤ (roll_forward_account_value av_bop wd pen r (some f)).av_eop
        ∧ (roll_forward_account_value av_bop wd pen r (some f)).av_after_wd
              + (roll_forward_account_value av_bop wd pen r (some f)).interest_credit
            ≤ (roll_forward_account_value av_bop wd pen r (some f)).av_eop) := by
  constructor
  · intro catalog inputs spec k
    induction k with
    | zero =>
      intro pm s rows hok row hrow
      simp only [runIllustrationMonths] at hok
      cases hok
      cases hrow
    | succ k ih =>
      intro pm s rows hok row hrow
      obtain ⟨out, rest, hs, hr, hcons⟩ := runMonths_ok_cons hok
      subst hcons
      rcases hrow with _ | hrow
      · obtain ⟨fac, ws, res, _, _, hout⟩ := monthStep_ok hs
        rw [hout]
        exact monthStepPure_row_floor spec inputs pm s fac ws res
      · exact ih (pm + 1) out.1 rest hr row (by assumption)
  · intro av_bop wd pen r f
    refine ⟨le_trans (le_max_right 0 f) (le_max_right _ _), le_max_left _ _⟩

/-- Witness for C4: the empty run (`k = 0`) is a successful run, on which the
    loop conclusion holds. -/
theorem C4_av_floor_invariant_witness :
    runIllustrationMonths catalog5 inputs5 spec5 0 1 (initEngineState spec5 inputs5)
      = .ok []
    ∧ ∀ row ∈ ([] : List MonthlyRow),
        max row.gf_mfv_eop row.gf_pfv_eop ≤ row.av_eop
        ∧ row.av_eop_before_floor ≤ row.av_eop :=
  ⟨rfl, C4_av_floor_invariant.1 catalog5 inputs5 spec5 0 1
    (initEngineState spec5 inputs5) [] rfl⟩

/-- An annual rate above −100% yields a positive monthly accumulation factor
    `1 + monthly_rate`. -/
theorem one_add_monthly_rate_pos (r : ℝ) (hr : -1 < r) :
    0 < 1 + monthly_rate_from_annual r := by
  have h : 1 + monthly_rate_from_annual r = (1 + r) ^ ((1 : ℝ) / 12) := by
    unfold monthly_rate_from_annual
    ring
  rw [h]
  exact Real.rpow_pos_of_pos (by linarith) _

/-- The account-value roll-forward without an explicit floor stays
    non-negative when the annual rate exceeds −100%. -/
theorem roll_forward_nonneg (av w p r : ℝ) (hr : -1 < r) :
    0 ≤ (roll_forward_account_value av w p r none).av_eop := by
  simp only [roll_forward_account_value]
  have h1 : (0 : ℝ) ≤ max 0 (av - max 0 w - max 0 p) := le_max_left _ _
  have h2 := one_add_monthly_rate_pos r hr
  calc (0 : ℝ) ≤ max 0 (av - max 0 w - max 0 p) * (1 + monthly_rate_from_annual r) :=
        mul_nonneg h1 (le_of_lt h2)
    _ = max 0 (av - max 0 w - max 0 p)
        + max 0 (av - max 0 w - max 0 p) * monthly_rate_from_annual r := by ring

/-- Guarantee funds stay non-negative through the withdrawal reduction and a
    month of crediting, when every schedule rate exceeds −100%. -/
theorem gf_month_nonneg (st : GuaranteeFundState) (w : ℝ) (py term : ℕ)
    (ir mgr : ℝ) (pp : ProspectiveFundValueParams) (hir : -1 < ir)
    (hmgr : -1 < mgr) (hp1 : -1 < pp.rate_annual)
    (hp2 : -1 < pp.rate_after_years_annual) :
    0 ≤ (credit_guarantee_funds_monthly
          (apply_surrender_to_guarantee_funds st w) py term ir mgr pp).mfv
    ∧ 0 ≤ (credit_guarantee_funds_monthly
          (apply_surrender_to_guarantee_funds st w) py term ir mgr pp).pfv := by
  have hmr : -1 < mfv_annual_rate_for_policy_year py term ir mgr := by
    unfold mfv_annual_rate_for_policy_year
    split <;> assumption
  have hpr : -1 < pfv_annual_rate_for_policy_year py pp := by
    unfold pfv_annual_rate_for_policy_year
    split <;> assumption
  simp only [credit_guarantee_funds_monthly, apply_surrender_to_guarantee_funds]
  constructor
  · exact mul_nonneg (le_max_left _ _)
      (le_of_lt (one_add_monthly_rate_pos _ hmr))
  · exact mul_nonneg (le_max_left _ _)
      (le_of_lt (one_add_monthly_rate_pos _ hpr))

/-- The annual crediting rate the orchestrator resolves for any policy year
    exceeds −100% when the input and product rates do. -/
theorem annual_rate_gt_neg_one (term yr : ℕ) (ir rr mgr : ℝ) (hir : -1 < ir)
    (hrr : -1 < rr) : -1 < build_annual_rate_schedule term ir rr mgr yr := by
  unfold build_annual_rate_schedule
  split
  · exact hir
  · exact lt_of_lt_of_le hrr (le_max_left _ _)

/-- One month of the pure loop tail preserves the non-negativity invariant and
    records non-negative BOP/EOP account values and guarantee-fund balances. -/
theorem monthStepPure_nonneg (spec : ProductSpec ℝ)
    (inputs : IllustrationInputs ℝ) (pm : ℕ) (s : EngineState) (fac : ℝ)
    (ws : WithdrawalState ℝ) (res : WithdrawalResult ℝ)
    (hinit : -1 < inputs.initial_rate) (hren : -1 < inputs.renewal_rate)
    (hmin : -1 < spec.features.minimum_guaranteed_rate)
    (hpfv1 : -1 < spec.features.guarantee_funds.pfv.rate_annual)
    (hpfv2 : -1 < spec.features.guarantee_funds.pfv.rate_after_years_annual)
    (hs : EngineInv s) :
    EngineInv (monthStepPure spec inputs pm s fac ws res).1
    ∧ 0 ≤ (monthStepPure spec inputs pm s fac ws res).2.av_bop
    ∧ 0 ≤ (monthStepPure spec inputs pm s fac ws res).2.av_eop
    ∧ 0 ≤ (monthStepPure spec inputs pm s fac ws res).2.gf_mfv_bop
    ∧ 0 ≤ (monthStepPure spec inputs pm s fac ws res).2.gf_mfv_eop
    ∧ 0 ≤ (monthStepPure spec inputs pm s fac ws res).2.gf_pfv_bop
    ∧ 0 ≤ (monthStepPure spec inputs pm s fac ws res).2.gf_pfv_eop := by
  obtain ⟨hav, hm, hp⟩ := hs
  have hgf := gf_month_nonneg s.gf res.withdrawal_amount ((pm - 1) / 12 + 1)
    spec.term_years inputs.initial_rate spec.features.minimum_guaranteed_rate
    (pfvParamsOf spec) hinit hmin hpfv1 hpfv2
  have hroll := roll_forward_nonneg s.av res.withdrawal_amount res.penalty_total
    (build_annual_rate_schedule spec.term_years inputs.initial_rate
      inputs.renewal_rate spec.features.minimum_guaranteed_rate ((pm - 1) / 12 + 1))
    (annual_rate_gt_neg_one _ _ _ _ _ hinit hren)
  have heop : (0 : ℝ) ≤
      max (roll_forward_account_value s.av res.withdrawal_amount res.penalty_total
        (build_annual_rate_schedule spec.term_years inputs.initial_rate
          inputs.renewal_rate spec.features.minimum_guaranteed_rate
          ((pm - 1) / 12 + 1)) none).av_eop
        (max (credit_guarantee_funds_monthly
            (apply_surrender_to_guarantee_funds s.gf res.withdrawal_amount)
            ((pm - 1) / 12 + 1) spec.term_years inputs.initial_rate
            spec.features.minimum_guaranteed_rate (pfvParamsOf spec)).mfv
          (credit_guarantee_funds_monthly
            (apply_surrender_to_guarantee_funds s.gf res.withdrawal_amount)
            ((pm - 1) / 12 + 1) spec.term_years inputs.initial_rate
            spec.features.minimum_guaranteed_rate (pfvParamsOf spec)).pfv) :=
    le_trans hroll (le_max_left _ _)
  simp only [monthStepPure, EngineInv]
  exact ⟨⟨heop, hgf.1, hgf.2⟩, hav, heop, hm, hgf.1, hp, hgf.2⟩

/-- C8.  Non-negativity: with a non-negative premium, guarantee-fund base
    percentages ≥ 0, and every annual crediting / guarantee-fund rate above
    −100%, (a) the state at issue satisfies the non-negativity invariant,
    (b) every row of any successful orchestrator run records non-negative
    BOP/EOP account values and guarantee-fund balances, and (c) the CSV
    calculator returns a non-negative cash surrender value on all inputs. -/
theorem C8_nonnegativity :
    (∀ (spec : ProductSpec ℝ) (inputs : IllustrationInputs ℝ),
      0 ≤ inputs.premium →
      0 ≤ spec.features.guarantee_funds.mfv.base_pct_of_premium →
      0 ≤ spec.features.guarantee_funds.pfv.base_pct_of_premium →
      EngineInv (initEngineState spec inputs))
    ∧ (∀ (catalog : ProductCatalog ℝ) (inputs : IllustrationInputs ℝ)
        (spec : ProductSpec ℝ) (k pm : ℕ) (s : EngineState)
        (rows : List MonthlyRow),
      -1 < inputs.initial_rate → -1 < inputs.renewal_rate →
      -1 < spec.features.minimum_guaranteed_rate →
      -1 < spec.features.guarantee_funds.pfv.rate_annual →
      -1 < spec.features.guarantee_funds.pfv.rate_after_years_annual →
      EngineInv s →
      runIllustrationMonths catalog inputs spec k pm s = .ok rows →
      ∀ row ∈ rows,
        0 ≤ row.av_bop ∧ 0 ≤ row.av_eop ∧ 0 ≤ row.gf_mfv_bop
        ∧ 0 ≤ row.gf_mfv_eop ∧ 0 ≤ row.gf_pfv_bop ∧ 0 ≤ row.gf_pfv_eop)
    ∧ (∀ {α : Type} [LinearOrderedField α] (av : α)
        (surrender_charge_amount : Option α)
        (withdrawal_amount free_used_this_txn surrender_charge_pct : α)
        (ov1 ov2 : Option α) (mva_amount : α) (gmv_floor nff_floor : Option α),
      0 ≤ (calculate_cash_surrender_value av surrender_charge_amount
        withdrawal_amount free_used_this_txn surrender_charge_pct
        ov1 ov2 mva_amount gmv_floor nff_floor).csv) := by
  refine ⟨?_, ?_, ?_⟩
  · intro spec inputs hprem hmfv hpfv
    refine ⟨hprem, ?_, ?_⟩
    · exact mul_nonneg hmfv hprem
    · exact mul_nonneg hpfv hprem
  · intro catalog inputs spec k
    induction k with
    | zero =>
      intro pm s rows _ _ _ _ _ _ hok row hrow
      simp only [runIllustrationMonths] at hok
      cases hok
      cases hrow
    | succ k ih =>
      intro pm s rows h1 h2 h3 h4 h5 hinv hok row hrow
      obtain ⟨out, rest, hs, hr, hcons⟩ := runMonths_ok_cons hok
      subst hcons
      obtain ⟨fac, ws, res, _, _, hout⟩ := monthStep_ok hs
      have hstep := monthStepPure_nonneg spec inputs pm s fac ws res h1 h2 h3 h4 h5 hinv
      rcases hrow with _ | hrow
      · rw [hout]
        exact hstep.2
      · refine ih (pm + 1) out.1 rest h1 h2 h3 h4 h5 ?_ hr row (by assumption)
        rw [hout]
        exact hstep.1
  · intro α instF av sca w fu pct ov1 ov2 mva gmv nff
    have hbase : ∀ b : α, (0 : α) ≤ max 0 b := fun b => le_max_left 0 b
    rcases gmv with _ | g <;> rcases nff with _ | f <;>
      simp only [calculate_cash_surrender_value] <;>
      first
        | exact hbase _
        | exact le_trans (hbase _) (le_max_left _ _)
        | exact le_trans (le_trans (hbase _) (le_max_left _ _)) (le_max_left _ _)

/-- Witness for C8: the issue state of the concrete 5-year product satisfies
    the invariant, and the empty run's rows satisfy the row conclusion. -/
theorem C8_nonnegativity_witness :
    ((0 : ℝ) ≤ inputs5.premium ∧ EngineInv (initEngineState spec5 inputs5))
    ∧ (runIllustrationMonths catalog5 inputs5 spec5 0 1 (initEngineState spec5 inputs5)
        = .ok []
      ∧ ∀ row ∈ ([] : List MonthlyRow),
          0 ≤ row.av_bop ∧ 0 ≤ row.av_eop ∧ 0 ≤ row.gf_mfv_bop
          ∧ 0 ≤ row.gf_mfv_eop ∧ 0 ≤ row.gf_pfv_bop ∧ 0 ≤ row.gf_pfv_eop) := by
  have hprem : (0 : ℝ) ≤ inputs5.premium := by norm_num [inputs5]
  have hinv : EngineInv (initEngineState spec5 inputs5) :=
    C8_nonnegativity.1 spec5 inputs5 hprem (by norm_num [spec5]) (by norm_num [spec5])
  exact ⟨⟨hprem, hinv⟩, rfl,
    C8_nonnegativity.2.1 catalog5 inputs5 spec5 0 1 (initEngineState spec5 inputs5) []
      (by norm_num [inputs5]) (by norm_num [inputs5]) (by norm_num [spec5])
      (by norm_num [spec5]) (by norm_num [spec5]) hinv rfl⟩

/-- The 5% monthly factor is positive. -/
theorem cAV5_pos : (0 : ℝ) < cAV5 := Real.rpow_pos_of_pos (by norm_num) _

/-- The 1.91% monthly factor is positive. -/
theorem cPF5_pos : (0 : ℝ) < cPF5 := Real.rpow_pos_of_pos (by norm_num) _

/-- The PFV monthly factor does not exceed the 5% crediting factor. -/
theorem cPF5_le_cAV5 : cPF5 ≤ cAV5 :=
  Real.rpow_le_rpow (by norm_num) (by norm_num) (by norm_num)

/-- In policy year 1 the withdrawal tracker always returns a zero withdrawal
    and zero penalty (the withdrawal branch requires year ≥ 2). -/
theorem calc_year1 {α : Type} [LinearOrderedField α] (cat : ProductCatalog α)
    (inputs : IllustrationInputs α) (st : WithdrawalState α) (m : ℕ)
    (av ybop pyi fac : α) (spec : ProductSpec α)
    (hget : cat.get? inputs.product_code = some spec) :
    ∃ ws res, calc_withdrawal_for_month cat inputs st 1 m av ybop pyi fac
        = .ok (ws, res)
      ∧ res.withdrawal_amount = 0 ∧ res.penalty_total = 0 := by
  have href : ∃ st0, refresh_year_state_if_needed cat inputs st 1 m ybop pyi = .ok st0 := by
    simp only [refresh_year_state_if_needed, ProductCatalog.get, hget, exceptOkBind]
    by_cases h1 : (1 : ℕ) ≠ st.policy_year ∧ m = 1
    · rw [if_pos h1]; exact ⟨_, rfl⟩
    · rw [if_neg h1]
      by_cases h2 : m ≠ st.month_in_policy_year
      · rw [if_pos h2]; exact ⟨_, rfl⟩
      · rw [if_neg h2]; exact ⟨_, rfl⟩
  obtain ⟨st0, hst0⟩ := href
  refine ⟨st0,
    { withdrawal_amount := 0
      free_limit_ytd := st0.free_limit_ytd
      free_used_this_txn := 0
      free_used_ytd_eop := st0.free_used_ytd
      free_remaining_eop := st0.free_remaining_ytd
      excess_amount := 0
      surrender_charge_pct := 0
      surrender_charge_amount := 0
      mva_factor := fac
      mva_amount_subject := 0
      mva_amount := 0
      penalty_total := 0 }, ?_, rfl, rfl⟩
  simp only [calc_withdrawal_for_month, hst0, exceptOkBind]
  rw [if_pos (by omega : ¬ (m = 1 ∧ 2 ≤ 1))]
  rfl

set_option maxHeartbeats 1000000 in
/-- A year-1 month of the concrete 5-year/5% projection: with both guarantee
    funds below the account value, the month succeeds, the account value grows
    by exactly the monthly factor (the floor never binds), and each guarantee
    fund grows by its own monthly factor. -/
theorem monthStep5_year1 (pm : ℕ) (h1 : 1 ≤ pm) (h2 : pm ≤ 12) (s : EngineState)
    (hm0 : 0 ≤ s.gf.mfv) (hp0 : 0 ≤ s.gf.pfv) (hma : s.gf.mfv ≤ s.av)
    (hpa : s.gf.pfv ≤ s.av) :
    ∃ out, monthStep catalog5 inputs5 spec5 pm s = .ok out
      ∧ out.1.av = s.av * cAV5
      ∧ out.1.gf.mfv = s.gf.mfv * cAV5
      ∧ out.1.gf.pfv = s.gf.pfv * cPF5
      ∧ out.2.av_eop = s.av * cAV5 := by
  have hav0 : 0 ≤ s.av := le_trans hm0 hma
  have hpy : (pm - 1) / 12 + 1 = 1 := by omega
  obtain ⟨ws, res, hcalc, hwd, hpen⟩ := calc_year1 catalog5 inputs5 s.wd_state
    ((pm - 1) % 12 + 1) s.av s.av s.prior_year_interest 0 spec5 rfl
  have hstep : monthStep catalog5 inputs5 spec5 pm s
      = .ok (monthStepPure spec5 inputs5 pm s 0 ws res) := by
    simp only [monthStep, hpy]
    rw [show monthMvaFactor spec5 inputs5 pm = .ok 0 from rfl]
    simp only [exceptOkBind]
    rw [hcalc]
    rfl
  refine ⟨monthStepPure spec5 inputs5 pm s 0 ws res, hstep, ?_⟩
  have hcAV : 0 < cAV5 := cAV5_pos
  have hcPF : 0 < cPF5 := cPF5_pos
  have hmc : s.gf.mfv * cAV5 ≤ s.av * cAV5 :=
    mul_le_mul_of_nonneg_right hma (le_of_lt hcAV)
  have hpc : s.gf.pfv * cPF5 ≤ s.av * cAV5 :=
    le_trans (mul_le_mul_of_nonneg_left cPF5_le_cAV5 hp0)
      (mul_le_mul_of_nonneg_right hpa (le_of_lt hcAV))
  simp only [monthStepPure, hpy, hwd, hpen, roll_forward_account_value,
    apply_surrender_to_guarantee_funds, credit_guarantee_funds_monthly,
    build_annual_rate_schedule, mfv_annual_rate_for_policy_year,
    pfv_annual_rate_for_policy_year, pfvParamsOf, spec5, inputs5]
  norm_num
  have e0a : (0 : ℝ) ⊔ s.av = s.av := sup_eq_right.mpr hav0
  have e0m : (0 : ℝ) ⊔ s.gf.mfv = s.gf.mfv := sup_eq_right.mpr hm0
  have e0p : (0 : ℝ) ⊔ s.gf.pfv = s.gf.pfv := sup_eq_right.mpr hp0
  have ecav : 1 + monthly_rate_from_annual (1 / 20) = cAV5 := by
    norm_num [monthly_rate_from_annual, cAV5]
  have ecpf : 1 + monthly_rate_from_annual (191 / 10000) = cPF5 := by
    norm_num [monthly_rate_from_annual, cPF5]
  refine ⟨?_, ?_, ?_, ?_⟩
  · rw [e0a, e0m, e0p,
      show s.av + s.av * monthly_rate_from_annual (1 / 20)
        = s.av * (1 + monthly_rate_from_annual (1 / 20)) from by ring,
      ecav, ecpf]
    exact sup_eq_left.mpr (sup_le hmc hpc)
  · rw [e0m, ecav]
  · rw [e0p, ecpf]
  · rw [e0a, e0m, e0p,
      show s.av + s.av * monthly_rate_from_annual (1 / 20)
        = s.av * (1 + monthly_rate_from_annual (1 / 20)) from by ring,
      ecav, ecpf]
    exact sup_eq_left.mpr (sup_le hmc hpc)

/-- Any stretch of year-1 months (months `pm … pm+k-1` with `pm+k ≤ 13`) of
    the concrete projection succeeds, and the recorded ending account values
    compound by the monthly factor each month. -/
theorem runMonths5_year1 : ∀ (k pm : ℕ), 1 ≤ pm → pm + k ≤ 13 →
    ∀ (s : EngineState), 0 ≤ s.gf.mfv → 0 ≤ s.gf.pfv → s.gf.mfv ≤ s.av →
      s.gf.pfv ≤ s.av →
    ∃ rows, runIllustrationMonths catalog5 inputs5 spec5 k pm s = .ok rows
      ∧ List.map (fun row => row.av_eop) rows
        = List.map (fun j => s.av * cAV5 ^ (j + 1)) (List.range k) := by
  intro k
  induction k with
  | zero =>
    intro pm _ _ s _ _ _ _
    exact ⟨[], rfl, by simp⟩
  | succ k ih =>
    intro pm hpm hk s hm0 hp0 hma hpa
    obtain ⟨out, hstep, hav, hmfv, hpfv, hrow⟩ :=
      monthStep5_year1 pm hpm (by omega) s hm0 hp0 hma hpa
    have hm0' : 0 ≤ out.1.gf.mfv := by
      rw [hmfv]; exact mul_nonneg hm0 (le_of_lt cAV5_pos)
    have hp0' : 0 ≤ out.1.gf.pfv := by
      rw [hpfv]; exact mul_nonneg hp0 (le_of_lt cPF5_pos)
    have hma' : out.1.gf.mfv ≤ out.1.av := by
      rw [hmfv, hav]
      exact mul_le_mul_of_nonneg_right hma (le_of_lt cAV5_pos)
    have hpa' : out.1.gf.pfv ≤ out.1.av := by
      rw [hpfv, hav]
      exact le_trans (mul_le_mul_of_nonneg_left cPF5_le_cAV5 hp0)
        (mul_le_mul_of_nonneg_right hpa (le_of_lt cAV5_pos))
    obtain ⟨rest, hrest, hmap⟩ := ih (pm + 1) (by omega) (by omega) out.1 hm0' hp0' hma' hpa'
    refine ⟨out.2 :: rest, ?_, ?_⟩
    · simp only [runIllustrationMonths, hstep, exceptOkBind, hrest, exceptMapOk]
      rfl
    · simp only [List.map_cons, hrow, hmap, hav, List.range_succ_eq_map,
        List.map_map]
      refine congrArg₂ List.cons ?_ ?_
      · rw [zero_add, pow_one]
      · apply List.map_congr_left
        intro j _
        simp only [Function.comp, Nat.succ_eq_add_one]
        ring

/-- C9.  With zero withdrawal and zero penalty, the monthly roll-forward
    multiplies the account value by exactly `1 + monthly_rate` where
    `monthly_rate = (1+r)^(1/12) − 1`; twelve iterations multiply it by
    exactly `1 + r`; and the concrete 100,000-premium, 5%-crediting,
    no-withdrawal projection (guarantee funds strictly below the account
    value, so the floor never binds) records `av_eop = 105000` at month 12. -/
theorem C9_no_withdrawal_compounding :
    (∀ (av_bop r : ℝ), 0 ≤ av_bop →
      (roll_forward_account_value av_bop 0 0 r none).av_eop
        = av_bop * (1 + monthly_rate_from_annual r))
    ∧ (∀ (r av0 : ℝ), -1 < r → 0 ≤ av0 →
      (fun a => (roll_forward_account_value a 0 0 r none).av_eop)^[12] av0
        = av0 * (1 + r))
    ∧ (∃ rows, runIllustrationMonths catalog5 inputs5 spec5 12 1
          (initEngineState spec5 inputs5) = .ok rows
        ∧ (List.map (fun row => row.av_eop) rows).getLast? = some 105000) := by
  have parta : ∀ (av_bop r : ℝ), 0 ≤ av_bop →
      (roll_forward_account_value av_bop 0 0 r none).av_eop
        = av_bop * (1 + monthly_rate_from_annual r) := by
    intro av r h
    simp only [roll_forward_account_value]
    norm_num
    rw [sup_eq_right.mpr h]
    ring
  have iter : ∀ (r : ℝ), -1 < r → ∀ (n : ℕ), ∀ (av0 : ℝ), 0 ≤ av0 →
      (fun a => (roll_forward_account_value a 0 0 r none).av_eop)^[n] av0
        = av0 * (1 + monthly_rate_from_annual r) ^ n := by
    intro r hr n
    induction n with
    | zero => intro av0 _; simp
    | succ n ih =>
      intro av0 h0
      rw [Function.iterate_succ_apply, parta av0 r h0,
        ih _ (mul_nonneg h0 (le_of_lt (one_add_monthly_rate_pos r hr)))]
      ring
  refine ⟨parta, ?_, ?_⟩
  · intro r av0 hr h0
    rw [iter r hr 12 av0 h0]
    have h1r : (0 : ℝ) ≤ 1 + r := by linarith
    have hm : (1 + monthly_rate_from_annual r) = (1 + r) ^ ((1 : ℝ) / 12) := by
      unfold monthly_rate_from_annual
      ring
    rw [hm, ← Real.rpow_natCast ((1 + r) ^ ((1 : ℝ) / 12)) 12,
      ← Real.rpow_mul h1r]
    norm_num
  · have hsav : (initEngineState spec5 inputs5).av = 100000 := by
      norm_num [initEngineState, inputs5]
    have hsm : (initEngineState spec5 inputs5).gf.mfv = 87500 := by
      norm_num [initEngineState, initialize_guarantee_funds, mfvParamsOf,
        pfvParamsOf, spec5, inputs5]
    have hsp : (initEngineState spec5 inputs5).gf.pfv = 90700 := by
      norm_num [initEngineState, initialize_guarantee_funds, mfvParamsOf,
        pfvParamsOf, spec5, inputs5]
    obtain ⟨rows, hrun, hmap⟩ := runMonths5_year1 12 1 (by norm_num) (by norm_num)
      (initEngineState spec5 inputs5) (by rw [hsm]; norm_num)
      (by rw [hsp]; norm_num) (by rw [hsm, hsav]; norm_num)
      (by rw [hsp, hsav]; norm_num)
    refine ⟨rows, hrun, ?_⟩
    rw [hmap, List.getLast?_map, hsav]
    rw [show (List.range 12).getLast? = some 11 from by decide]
    have hc12 : cAV5 ^ (12 : ℕ) = 21 / 20 := by
      unfold cAV5
      rw [← Real.rpow_natCast ((1 + 5 / 100 : ℝ) ^ ((1 : ℝ) / 12)) 12,
        ← Real.rpow_mul (by norm_num)]
      norm_num
    simp only [Option.map_some']
    norm_num [hc12]

/-- Witness for C9: the per-month identity instantiated at a 100,000 account
    value and the 5% annual rate. -/
theorem C9_no_withdrawal_compounding_witness :
    (0 : ℝ) ≤ 100000 ∧
    (roll_forward_account_value 100000 0 0 (5 / 100) none).av_eop
      = 100000 * (1 + monthly_rate_from_annual (5 / 100)) :=
  ⟨by norm_num, C9_no_withdrawal_compounding.1 100000 (5 / 100) (by norm_num)⟩
